import Mathlib

/-!
Verification of the scrape-orchestration core of btcnode-prom-metrics.

The embedding follows the Rust sources:
- metrics.rs: the fixed collection of named gauges, modelled as a function
  from a `Slot` enumeration (one constructor per registered gauge) to ℚ.
- node.rs: the node client interface; one cycle's worth of responses is a
  record of `Except` results, one per query operation.
- collector.rs: `MetricsCollector::collect`, modelled as `collect` below,
  one step function per match-block of the source, threading the
  `had_error` flag and the optional `block_height` exactly as the code does.

Gauge values (f64 in the source) are modelled as rationals; the claims under
study are value-routing and control-flow claims, not rounding claims.
-/

set_option maxHeartbeats 1600000

namespace Btcnode

/-- Error type of the crate (error.rs): RPC transport, prometheus registry,
or configuration failure, each carrying a human-readable cause. -/
inductive Error where
  | Rpc : String → Error
  | Prometheus : String → Error
  | Config : String → Error
deriving Repr, DecidableEq

/-- One constructor per gauge registered in BitcoinMetrics::new (metrics.rs),
in registration order. -/
inductive Slot where
  | blocks | headers | difficulty | verification_progress | size_on_disk
  | initial_block_download | chain_pruned
  | mempool_transactions | mempool_bytes | mempool_usage | mempool_max_bytes
  | mempool_min_fee | mempool_total_fee | mempool_min_relay_tx_fee
  | mempool_incremental_relay_fee | mempool_unbroadcast_count | mempool_full_rbf
  | connections | connections_in | connections_out | network_active
  | node_version | protocol_version | time_offset | relay_fee | incremental_fee
  | peer_count | peers_inbound | peers_outbound | peers_total_bytes_sent
  | peers_total_bytes_received | peers_avg_ping_seconds
  | network_hash_ps | mining_pooled_tx
  | chain_tx_count | chain_tx_rate | chain_tx_window_block_count
  | chain_tx_window_tx_count | chain_tx_window_interval
  | net_total_bytes_received | net_total_bytes_sent
  | fee_estimate_2_blocks | fee_estimate_6_blocks | fee_estimate_12_blocks
  | fee_estimate_144_blocks
  | chain_tips_count
  | node_uptime_seconds
  | latest_block_txs | latest_block_size | latest_block_weight
  | latest_block_avg_fee | latest_block_avg_fee_rate | latest_block_median_fee
  | latest_block_min_fee | latest_block_max_fee | latest_block_min_fee_rate
  | latest_block_max_fee_rate | latest_block_total_fee | latest_block_subsidy
  | latest_block_inputs | latest_block_outputs | latest_block_segwit_txs
  | latest_block_segwit_total_size | latest_block_segwit_total_weight
  | latest_block_total_out | latest_block_utxo_increase
  | latest_block_fee_rate_10th | latest_block_fee_rate_25th
  | latest_block_fee_rate_50th | latest_block_fee_rate_75th
  | latest_block_fee_rate_90th
  | scrape_duration_seconds | scrape_error
deriving Repr, DecidableEq

/-- The gauge collection: each slot holds one numeric value. -/
def BitcoinMetrics : Type := Slot → ℚ

/-- Gauge::set — overwrite one slot, leave every other slot untouched. -/
def BitcoinMetrics.set (m : BitcoinMetrics) (slot : Slot) (v : ℚ) : BitcoinMetrics :=
  fun sl => if sl = slot then v else m sl

theorem BitcoinMetrics.set_same (m : BitcoinMetrics) (slot : Slot) (v : ℚ) :
    m.set slot v slot = v := if_pos rfl

theorem BitcoinMetrics.set_other (m : BitcoinMetrics) (slot : Slot) (v : ℚ) (sl : Slot)
    (h : ¬ sl = slot) : m.set slot v sl = m sl := if_neg h

/-- getblockchaininfo result — the fields the collector consumes (the external
corepc type also carries chain/hash/time metadata that collect never reads). -/
structure GetBlockchainInfo where
  blocks : Int
  headers : Int
  difficulty : ℚ
  verification_progress : ℚ
  size_on_disk : Nat
  initial_block_download : Bool
  pruned : Bool
deriving Repr, DecidableEq

/-- getmempoolinfo result — the fields the collector consumes. -/
structure GetMempoolInfo where
  size : Int
  bytes : Int
  usage : Int
  max_mempool : Int
  mempool_min_fee : ℚ
  total_fee : ℚ
  min_relay_tx_fee : ℚ
  incremental_relay_fee : ℚ
  unbroadcast_count : Int
  full_rbf : Bool
deriving Repr, DecidableEq

/-- getnetworkinfo result — the fields the collector consumes. -/
structure GetNetworkInfo where
  version : Int
  protocol_version : Int
  time_offset : Int
  connections : Int
  connections_in : Int
  connections_out : Int
  network_active : Bool
  relay_fee : ℚ
  incremental_fee : ℚ
deriving Repr, DecidableEq

/-- One peer record — the fields the per-peer aggregation consumes. -/
structure PeerInfo where
  inbound : Bool
  bytes_sent : Nat
  bytes_received : Nat
  ping_time : Option ℚ
deriving Repr, DecidableEq

/-- getpeerinfo result: the ordered list of peer records (the `.0` of the
Rust tuple struct). -/
abbrev GetPeerInfo := List PeerInfo

/-- Custom getmininginfo type of node.rs, all fields: declares
network_hash_ps as floating-point (the upstream crate says i64). -/
structure MiningInfo where
  blocks : Nat
  current_block_weight : Option Nat
  current_block_tx : Option Int
  difficulty : ℚ
  network_hash_ps : ℚ
  pooled_tx : Int
  chain : String
  warnings : List String
deriving Repr, DecidableEq

/-- Custom getchaintxstats type of node.rs, all fields: declares tx_rate as
Option of a floating-point (the upstream crate says Option of i64). -/
structure ChainTxStats where
  time : Int
  tx_count : Int
  window_final_block_hash : String
  window_final_block_height : Int
  window_block_count : Int
  window_tx_count : Option Int
  window_interval : Option Int
  tx_rate : Option ℚ
deriving Repr, DecidableEq

/-- getnettotals result — the fields the collector consumes. -/
structure GetNetTotals where
  total_bytes_received : Nat
  total_bytes_sent : Nat
deriving Repr, DecidableEq

/-- estimatesmartfee result: the fee rate is absent when the node has
insufficient data for the requested target. -/
structure EstimateSmartFee where
  fee_rate : Option ℚ
  errors : Option (List String)
  blocks : Nat
deriving Repr, DecidableEq

inductive ChainTipsStatus where
  | Invalid | HeadersOnly | ValidHeaders | ValidFork | Active
deriving Repr, DecidableEq

/-- One alternate chain tip; only the count of the list is consumed. -/
structure ChainTips where
  height : Int
  hash : String
  branch_length : Nat
  status : ChainTipsStatus
deriving Repr, DecidableEq

/-- getchaintips result: the list of tips (the `.0` of the Rust tuple struct). -/
abbrev GetChainTips := List ChainTips

/-- getblockstats result — the fields the collector consumes.
fee_rate_percentiles is the fixed 5-point array of the protocol. -/
structure GetBlockStats where
  average_fee : Int
  average_fee_rate : Int
  fee_rate_percentiles : Fin 5 → Int
  inputs : Int
  max_fee : Int
  max_fee_rate : Int
  median_fee : Int
  minimum_fee : Int
  minimum_fee_rate : Int
  outputs : Int
  subsidy : Int
  segwit_total_size : Int
  segwit_total_weight : Int
  segwit_txs : Int
  total_out : Int
  total_size : Int
  total_weight : Int
  total_fee : Int
  txs : Int
  utxo_increase : Int

/-- One scrape cycle's responses of the NodeClient trait (node.rs):
each operation independently succeeds with a typed result or fails.
estimate_smart_fee and get_block_stats_by_height are keyed by their
integer argument. -/
structure NodeClient where
  get_blockchain_info : Except Error GetBlockchainInfo
  get_mempool_info : Except Error GetMempoolInfo
  get_network_info : Except Error GetNetworkInfo
  get_peer_info : Except Error GetPeerInfo
  get_mining_info : Except Error MiningInfo
  get_chain_tx_stats : Except Error ChainTxStats
  get_net_totals : Except Error GetNetTotals
  estimate_smart_fee : Nat → Except Error EstimateSmartFee
  get_chain_tips : Except Error GetChainTips
  uptime : Except Error Nat
  get_block_stats_by_height : Nat → Except Error GetBlockStats

/-- Mutable locals of MetricsCollector::collect: the gauge collection,
the had_error flag, and the optional chain height from step one. -/
structure CycleState where
  metrics : BitcoinMetrics
  had_error : Bool
  block_height : Option Int

/-- Locals at the top of collect: no error yet, no height yet. -/
def initCycle (s : BitcoinMetrics) : CycleState :=
  { metrics := s, had_error := false, block_height := none }

/-- The Rust `as u32` cast applied to the i64 chain height
(collector.rs line 208): truncation to the low 32 bits. -/
def i64_as_u32 (h : Int) : Nat := (h % (2 ^ 32 : Int)).toNat

/-- Blockchain info block of collect (collector.rs lines 27-44). -/
def stepBlockchainInfo (r : Except Error GetBlockchainInfo) (c : CycleState) : CycleState :=
  match r with
  | .ok info =>
      let m := c.metrics.set .blocks (info.blocks : ℚ)
      let m := m.set .headers (info.headers : ℚ)
      let m := m.set .difficulty info.difficulty
      let m := m.set .verification_progress info.verification_progress
      let m := m.set .size_on_disk (info.size_on_disk : ℚ)
      let m := m.set .initial_block_download (if info.initial_block_download then 1 else 0)
      let m := m.set .chain_pruned (if info.pruned then 1 else 0)
      { metrics := m, had_error := c.had_error, block_height := some info.blocks }
  | .error _ => { c with had_error := true }

/-- Mempool info block of collect (collector.rs lines 46-65). -/
def stepMempoolInfo (r : Except Error GetMempoolInfo) (c : CycleState) : CycleState :=
  match r with
  | .ok info =>
      let m := c.metrics.set .mempool_transactions (info.size : ℚ)
      let m := m.set .mempool_bytes (info.bytes : ℚ)
      let m := m.set .mempool_usage (info.usage : ℚ)
      let m := m.set .mempool_max_bytes (info.max_mempool : ℚ)
      let m := m.set .mempool_min_fee info.mempool_min_fee
      let m := m.set .mempool_total_fee info.total_fee
      let m := m.set .mempool_min_relay_tx_fee info.min_relay_tx_fee
      let m := m.set .mempool_incremental_relay_fee info.incremental_relay_fee
      let m := m.set .mempool_unbroadcast_count (info.unbroadcast_count : ℚ)
      let m := m.set .mempool_full_rbf (if info.full_rbf then 1 else 0)
      { c with metrics := m }
  | .error _ => { c with had_error := true }

/-- Network info block of collect (collector.rs lines 67-85). -/
def stepNetworkInfo (r : Except Error GetNetworkInfo) (c : CycleState) : CycleState :=
  match r with
  | .ok info =>
      let m := c.metrics.set .connections (info.connections : ℚ)
      let m := m.set .connections_in (info.connections_in : ℚ)
      let m := m.set .connections_out (info.connections_out : ℚ)
      let m := m.set .network_active (if info.network_active then 1 else 0)
      let m := m.set .node_version (info.version : ℚ)
      let m := m.set .protocol_version (info.protocol_version : ℚ)
      let m := m.set .time_offset (info.time_offset : ℚ)
      let m := m.set .relay_fee info.relay_fee
      let m := m.set .incremental_fee info.incremental_fee
      { c with metrics := m }
  | .error _ => { c with had_error := true }

/-- Peer info block of collect (collector.rs lines 87-111): the list is
aggregated; the division for the mean ping is guarded by ping_count > 0. -/
def stepPeerInfo (r : Except Error GetPeerInfo) (c : CycleState) : CycleState :=
  match r with
  | .ok peers =>
      let total := peers.length
      let inbound := (peers.filter (fun p => p.inbound)).length
      let outbound := total - inbound
      let total_sent : Nat := (peers.map (fun p => p.bytes_sent)).sum
      let total_recv : Nat := (peers.map (fun p => p.bytes_received)).sum
      let ping_sum : ℚ := (peers.filterMap (fun p => p.ping_time)).sum
      let ping_count := (peers.filter (fun p => p.ping_time.isSome)).length
      let avg_ping : ℚ := if ping_count > 0 then ping_sum / (ping_count : ℚ) else 0
      let m := c.metrics.set .peer_count (total : ℚ)
      let m := m.set .peers_inbound (inbound : ℚ)
      let m := m.set .peers_outbound (outbound : ℚ)
      let m := m.set .peers_total_bytes_sent (total_sent : ℚ)
      let m := m.set .peers_total_bytes_received (total_recv : ℚ)
      let m := m.set .peers_avg_ping_seconds avg_ping
      { c with metrics := m }
  | .error _ => { c with had_error := true }

/-- Mining info block of collect (collector.rs lines 113-124). -/
def stepMiningInfo (r : Except Error MiningInfo) (c : CycleState) : CycleState :=
  match r with
  | .ok info =>
      let m := c.metrics.set .network_hash_ps info.network_hash_ps
      let m := m.set .mining_pooled_tx (info.pooled_tx : ℚ)
      { c with metrics := m }
  | .error _ => { c with had_error := true }

/-- Chain tx stats block of collect (collector.rs lines 126-146): the three
optional fields update their slot only when present. -/
def stepChainTxStats (r : Except Error ChainTxStats) (c : CycleState) : CycleState :=
  match r with
  | .ok info =>
      let m := c.metrics.set .chain_tx_count (info.tx_count : ℚ)
      let m := match info.tx_rate with
        | some rate => m.set .chain_tx_rate rate
        | none => m
      let m := m.set .chain_tx_window_block_count (info.window_block_count : ℚ)
      let m := match info.window_tx_count with
        | some count => m.set .chain_tx_window_tx_count (count : ℚ)
        | none => m
      let m := match info.window_interval with
        | some interval => m.set .chain_tx_window_interval (interval : ℚ)
        | none => m
      { c with metrics := m }
  | .error _ => { c with had_error := true }

/-- Net totals block of collect (collector.rs lines 148-159). -/
def stepNetTotals (r : Except Error GetNetTotals) (c : CycleState) : CycleState :=
  match r with
  | .ok info =>
      let m := c.metrics.set .net_total_bytes_received (info.total_bytes_received : ℚ)
      let m := m.set .net_total_bytes_sent (info.total_bytes_sent : ℚ)
      { c with metrics := m }
  | .error _ => { c with had_error := true }

/-- The fee-estimation (target, gauge) table of collect
(collector.rs lines 162-167). -/
def feeTargets : List (Nat × Slot) :=
  [(2, .fee_estimate_2_blocks), (6, .fee_estimate_6_blocks),
   (12, .fee_estimate_12_blocks), (144, .fee_estimate_144_blocks)]

/-- One iteration of the fee-estimation loop (collector.rs lines 168-178):
the gauge is set only when the call succeeds with a present rate; a failure
marks the cycle errored. -/
def stepFee (f : Nat → Except Error EstimateSmartFee) (tg : Nat × Slot) (c : CycleState) :
    CycleState :=
  match f tg.1 with
  | .ok est =>
      match est.fee_rate with
      | some rate => { c with metrics := c.metrics.set tg.2 rate }
      | none => c
  | .error _ => { c with had_error := true }

/-- The fee-estimation loop of collect (collector.rs lines 162-179). -/
def stepFeeEstimates (f : Nat → Except Error EstimateSmartFee) (c : CycleState) : CycleState :=
  feeTargets.foldl (fun c tg => stepFee f tg c) c

/-- Chain tips block of collect (collector.rs lines 182-192). -/
def stepChainTips (r : Except Error GetChainTips) (c : CycleState) : CycleState :=
  match r with
  | .ok tips => { c with metrics := c.metrics.set .chain_tips_count (tips.length : ℚ) }
  | .error _ => { c with had_error := true }

/-- Uptime block of collect (collector.rs lines 194-204). -/
def stepUptime (r : Except Error Nat) (c : CycleState) : CycleState :=
  match r with
  | .ok seconds => { c with metrics := c.metrics.set .node_uptime_seconds (seconds : ℚ) }
  | .error _ => { c with had_error := true }

/-- Latest block stats block of collect (collector.rs lines 206-241):
only entered when block_height was populated by the blockchain info step. -/
def stepBlockStats (f : Nat → Except Error GetBlockStats) (c : CycleState) : CycleState :=
  match c.block_height with
  | some height =>
      match f (i64_as_u32 height) with
      | .ok stats =>
          let m := c.metrics.set .latest_block_txs (stats.txs : ℚ)
          let m := m.set .latest_block_size (stats.total_size : ℚ)
          let m := m.set .latest_block_weight (stats.total_weight : ℚ)
          let m := m.set .latest_block_avg_fee (stats.average_fee : ℚ)
          let m := m.set .latest_block_avg_fee_rate (stats.average_fee_rate : ℚ)
          let m := m.set .latest_block_median_fee (stats.median_fee : ℚ)
          let m := m.set .latest_block_min_fee (stats.minimum_fee : ℚ)
          let m := m.set .latest_block_max_fee (stats.max_fee : ℚ)
          let m := m.set .latest_block_min_fee_rate (stats.minimum_fee_rate : ℚ)
          let m := m.set .latest_block_max_fee_rate (stats.max_fee_rate : ℚ)
          let m := m.set .latest_block_total_fee (stats.total_fee : ℚ)
          let m := m.set .latest_block_subsidy (stats.subsidy : ℚ)
          let m := m.set .latest_block_inputs (stats.inputs : ℚ)
          let m := m.set .latest_block_outputs (stats.outputs : ℚ)
          let m := m.set .latest_block_segwit_txs (stats.segwit_txs : ℚ)
          let m := m.set .latest_block_segwit_total_size (stats.segwit_total_size : ℚ)
          let m := m.set .latest_block_segwit_total_weight (stats.segwit_total_weight : ℚ)
          let m := m.set .latest_block_total_out (stats.total_out : ℚ)
          let m := m.set .latest_block_utxo_increase (stats.utxo_increase : ℚ)
          let m := m.set .latest_block_fee_rate_10th (stats.fee_rate_percentiles 0 : ℚ)
          let m := m.set .latest_block_fee_rate_25th (stats.fee_rate_percentiles 1 : ℚ)
          let m := m.set .latest_block_fee_rate_50th (stats.fee_rate_percentiles 2 : ℚ)
          let m := m.set .latest_block_fee_rate_75th (stats.fee_rate_percentiles 3 : ℚ)
          let m := m.set .latest_block_fee_rate_90th (stats.fee_rate_percentiles 4 : ℚ)
          { c with metrics := m }
      | .error _ => { c with had_error := true }
  | none => c

/-- Tail of collect (collector.rs lines 243-245): duration and error flag
are written unconditionally, in that order. -/
def stepMeta (duration : ℚ) (c : CycleState) : CycleState :=
  let m := c.metrics.set .scrape_duration_seconds duration
  let m := m.set .scrape_error (if c.had_error then 1 else 0)
  { c with metrics := m }

/-- MetricsCollector::collect (collector.rs lines 22-246): one scrape cycle
over the metric collection, the blocks in source order (innermost first).
The elapsed duration is an input of the model. -/
def collect (node : NodeClient) (duration : ℚ) (s : BitcoinMetrics) : BitcoinMetrics :=
  (stepMeta duration
    (stepBlockStats node.get_block_stats_by_height
      (stepUptime node.uptime
        (stepChainTips node.get_chain_tips
          (stepFeeEstimates node.estimate_smart_fee
            (stepNetTotals node.get_net_totals
              (stepChainTxStats node.get_chain_tx_stats
                (stepMiningInfo node.get_mining_info
                  (stepPeerInfo node.get_peer_info
                    (stepNetworkInfo node.get_network_info
                      (stepMempoolInfo node.get_mempool_info
                        (stepBlockchainInfo node.get_blockchain_info
                          (initCycle s))))))))))))).metrics

/-- Whether at least one operation invoked during the cycle failed: the
eleven fixed queries (the fee estimate once per target) plus the
block-statistics call, which is invoked only when blockchain info succeeded. -/
def anyFailure (n : NodeClient) : Bool :=
  !n.get_blockchain_info.isOk || !n.get_mempool_info.isOk || !n.get_network_info.isOk ||
  !n.get_peer_info.isOk || !n.get_mining_info.isOk || !n.get_chain_tx_stats.isOk ||
  !n.get_net_totals.isOk ||
  !(n.estimate_smart_fee 2).isOk || !(n.estimate_smart_fee 6).isOk ||
  !(n.estimate_smart_fee 12).isOk || !(n.estimate_smart_fee 144).isOk ||
  !n.get_chain_tips.isOk || !n.uptime.isOk ||
  (match n.get_blockchain_info with
   | .ok info => !(n.get_block_stats_by_height (i64_as_u32 info.blocks)).isOk
   | .error _ => false)

/-- Slots written by the blockchain info block. -/
def ownedByBlockchainInfo : Slot → Bool
  | .blocks | .headers | .difficulty | .verification_progress | .size_on_disk
  | .initial_block_download | .chain_pruned => true
  | _ => false

/-- Slots written by the mempool info block. -/
def ownedByMempoolInfo : Slot → Bool
  | .mempool_transactions | .mempool_bytes | .mempool_usage | .mempool_max_bytes
  | .mempool_min_fee | .mempool_total_fee | .mempool_min_relay_tx_fee
  | .mempool_incremental_relay_fee | .mempool_unbroadcast_count | .mempool_full_rbf => true
  | _ => false

/-- Slots written by the network info block. -/
def ownedByNetworkInfo : Slot → Bool
  | .connections | .connections_in | .connections_out | .network_active
  | .node_version | .protocol_version | .time_offset | .relay_fee | .incremental_fee => true
  | _ => false

/-- Slots written by the peer info block. -/
def ownedByPeerInfo : Slot → Bool
  | .peer_count | .peers_inbound | .peers_outbound | .peers_total_bytes_sent
  | .peers_total_bytes_received | .peers_avg_ping_seconds => true
  | _ => false

/-- Slots written by the mining info block. -/
def ownedByMiningInfo : Slot → Bool
  | .network_hash_ps | .mining_pooled_tx => true
  | _ => false

/-- Slots written by the chain tx stats block. -/
def ownedByChainTxStats : Slot → Bool
  | .chain_tx_count | .chain_tx_rate | .chain_tx_window_block_count
  | .chain_tx_window_tx_count | .chain_tx_window_interval => true
  | _ => false

/-- Slots written by the net totals block. -/
def ownedByNetTotals : Slot → Bool
  | .net_total_bytes_received | .net_total_bytes_sent => true
  | _ => false

/-- Slots written by the fee-estimation loop. -/
def ownedByFeeEstimates : Slot → Bool
  | .fee_estimate_2_blocks | .fee_estimate_6_blocks | .fee_estimate_12_blocks
  | .fee_estimate_144_blocks => true
  | _ => false

/-- Slots written by the chain tips block. -/
def ownedByChainTips : Slot → Bool
  | .chain_tips_count => true
  | _ => false

/-- Slots written by the uptime block. -/
def ownedByUptime : Slot → Bool
  | .node_uptime_seconds => true
  | _ => false

/-- Slots written by the latest-block-stats block. -/
def ownedByBlockStats : Slot → Bool
  | .latest_block_txs | .latest_block_size | .latest_block_weight
  | .latest_block_avg_fee | .latest_block_avg_fee_rate | .latest_block_median_fee
  | .latest_block_min_fee | .latest_block_max_fee | .latest_block_min_fee_rate
  | .latest_block_max_fee_rate | .latest_block_total_fee | .latest_block_subsidy
  | .latest_block_inputs | .latest_block_outputs | .latest_block_segwit_txs
  | .latest_block_segwit_total_size | .latest_block_segwit_total_weight
  | .latest_block_total_out | .latest_block_utxo_increase
  | .latest_block_fee_rate_10th | .latest_block_fee_rate_25th
  | .latest_block_fee_rate_50th | .latest_block_fee_rate_75th
  | .latest_block_fee_rate_90th => true
  | _ => false

/-- The two per-cycle meta slots. -/
def ownedByMeta : Slot → Bool
  | .scrape_duration_seconds | .scrape_error => true
  | _ => false

/-! Frame lemmas: each block leaves every slot it does not own untouched. -/

theorem stepBlockchainInfo_frame (r : Except Error GetBlockchainInfo) (c : CycleState)
    (slot : Slot) (h : ownedByBlockchainInfo slot = false) :
    (stepBlockchainInfo r c).metrics slot = c.metrics slot := by
  cases r with
  | ok info => cases slot <;> first | rfl | exact absurd h (by decide)
  | error e => rfl

theorem stepMempoolInfo_frame (r : Except Error GetMempoolInfo) (c : CycleState)
    (slot : Slot) (h : ownedByMempoolInfo slot = false) :
    (stepMempoolInfo r c).metrics slot = c.metrics slot := by
  cases r with
  | ok info => cases slot <;> first | rfl | exact absurd h (by decide)
  | error e => rfl

theorem stepNetworkInfo_frame (r : Except Error GetNetworkInfo) (c : CycleState)
    (slot : Slot) (h : ownedByNetworkInfo slot = false) :
    (stepNetworkInfo r c).metrics slot = c.metrics slot := by
  cases r with
  | ok info => cases slot <;> first | rfl | exact absurd h (by decide)
  | error e => rfl

theorem stepPeerInfo_frame (r : Except Error GetPeerInfo) (c : CycleState)
    (slot : Slot) (h : ownedByPeerInfo slot = false) :
    (stepPeerInfo r c).metrics slot = c.metrics slot := by
  cases r with
  | ok peers => cases slot <;> first | rfl | exact absurd h (by decide)
  | error e => rfl

theorem stepMiningInfo_frame (r : Except Error MiningInfo) (c : CycleState)
    (slot : Slot) (h : ownedByMiningInfo slot = false) :
    (stepMiningInfo r c).metrics slot = c.metrics slot := by
  cases r with
  | ok info => cases slot <;> first | rfl | exact absurd h (by decide)
  | error e => rfl

theorem stepChainTxStats_frame (r : Except Error ChainTxStats) (c : CycleState)
    (slot : Slot) (h : ownedByChainTxStats slot = false) :
    (stepChainTxStats r c).metrics slot = c.metrics slot := by
  cases r with
  | ok info =>
      obtain ⟨t, txc, wh, wht, wbc, wtc, wiv, txr⟩ := info
      cases txr <;> cases wtc <;> cases wiv <;>
        cases slot <;> first | rfl | exact absurd h (by decide)
  | error e => rfl

theorem stepNetTotals_frame (r : Except Error GetNetTotals) (c : CycleState)
    (slot : Slot) (h : ownedByNetTotals slot = false) :
    (stepNetTotals r c).metrics slot = c.metrics slot := by
  cases r with
  | ok info => cases slot <;> first | rfl | exact absurd h (by decide)
  | error e => rfl

theorem stepFee_frame (f : Nat → Except Error EstimateSmartFee) (tg : Nat × Slot)
    (c : CycleState) (slot : Slot) (h : ¬ tg.2 = slot) :
    (stepFee f tg c).metrics slot = c.metrics slot := by
  cases hf : f tg.1 with
  | ok est =>
      cases hr : est.fee_rate with
      | some r =>
          simp only [stepFee, hf, hr]
          exact BitcoinMetrics.set_other _ _ _ _ (fun e => h e.symm)
      | none => simp only [stepFee, hf, hr]
  | error e => simp only [stepFee, hf]

theorem foldl_stepFee_frame (f : Nat → Except Error EstimateSmartFee)
    (l : List (Nat × Slot)) (c : CycleState) (slot : Slot)
    (hl : ∀ tg ∈ l, ¬ tg.2 = slot) :
    (l.foldl (fun c tg => stepFee f tg c) c).metrics slot = c.metrics slot := by
  induction l generalizing c with
  | nil => rfl
  | cons hd tl ih =>
      rw [List.foldl_cons, ih _ (fun tg htg => hl tg (List.mem_cons_of_mem _ htg))]
      exact stepFee_frame f hd c slot (hl hd (List.mem_cons_self _ _))

theorem stepFeeEstimates_frame (f : Nat → Except Error EstimateSmartFee) (c : CycleState)
    (slot : Slot) (h : ownedByFeeEstimates slot = false) :
    (stepFeeEstimates f c).metrics slot = c.metrics slot := by
  refine foldl_stepFee_frame f feeTargets c slot ?_
  intro tg htg e
  have h2 : ownedByFeeEstimates tg.2 = true := by
    simp only [feeTargets, List.mem_cons, List.not_mem_nil, or_false] at htg
    rcases htg with rfl | rfl | rfl | rfl <;> rfl
  rw [← e, h2] at h
  exact absurd h (by decide)

theorem stepChainTips_frame (r : Except Error GetChainTips) (c : CycleState)
    (slot : Slot) (h : ownedByChainTips slot = false) :
    (stepChainTips r c).metrics slot = c.metrics slot := by
  cases r with
  | ok tips => cases slot <;> first | rfl | exact absurd h (by decide)
  | error e => rfl

theorem stepUptime_frame (r : Except Error Nat) (c : CycleState)
    (slot : Slot) (h : ownedByUptime slot = false) :
    (stepUptime r c).metrics slot = c.metrics slot := by
  cases r with
  | ok seconds => cases slot <;> first | rfl | exact absurd h (by decide)
  | error e => rfl

theorem stepBlockStats_frame (f : Nat → Except Error GetBlockStats) (c : CycleState)
    (slot : Slot) (h : ownedByBlockStats slot = false) :
    (stepBlockStats f c).metrics slot = c.metrics slot := by
  obtain ⟨m, he, bh⟩ := c
  cases bh with
  | none => rfl
  | some height =>
      cases hf : f (i64_as_u32 height) with
      | ok stats =>
          simp only [stepBlockStats, hf]
          cases slot <;> first | rfl | exact absurd h (by decide)
      | error e =>
          simp only [stepBlockStats, hf]

theorem stepMeta_frame (duration : ℚ) (c : CycleState) (slot : Slot)
    (h : ownedByMeta slot = false) :
    (stepMeta duration c).metrics slot = c.metrics slot := by
  cases slot <;> first | rfl | exact absurd h (by decide)

/-! block_height bookkeeping: only the blockchain info block writes it. -/

theorem stepBlockchainInfo_bh_ok (info : GetBlockchainInfo) (c : CycleState) :
    (stepBlockchainInfo (.ok info) c).block_height = some info.blocks := rfl

theorem stepBlockchainInfo_bh_err (e : Error) (c : CycleState) :
    (stepBlockchainInfo (.error e) c).block_height = c.block_height := rfl

theorem stepMempoolInfo_bh (r : Except Error GetMempoolInfo) (c : CycleState) :
    (stepMempoolInfo r c).block_height = c.block_height := by cases r <;> rfl

theorem stepNetworkInfo_bh (r : Except Error GetNetworkInfo) (c : CycleState) :
    (stepNetworkInfo r c).block_height = c.block_height := by cases r <;> rfl

theorem stepPeerInfo_bh (r : Except Error GetPeerInfo) (c : CycleState) :
    (stepPeerInfo r c).block_height = c.block_height := by cases r <;> rfl

theorem stepMiningInfo_bh (r : Except Error MiningInfo) (c : CycleState) :
    (stepMiningInfo r c).block_height = c.block_height := by cases r <;> rfl

theorem stepChainTxStats_bh (r : Except Error ChainTxStats) (c : CycleState) :
    (stepChainTxStats r c).block_height = c.block_height := by cases r <;> rfl

theorem stepNetTotals_bh (r : Except Error GetNetTotals) (c : CycleState) :
    (stepNetTotals r c).block_height = c.block_height := by cases r <;> rfl

theorem stepFee_bh (f : Nat → Except Error EstimateSmartFee) (tg : Nat × Slot)
    (c : CycleState) : (stepFee f tg c).block_height = c.block_height := by
  cases hf : f tg.1 with
  | ok est => cases hr : est.fee_rate <;> simp only [stepFee, hf, hr]
  | error e => simp only [stepFee, hf]

theorem foldl_stepFee_bh (f : Nat → Except Error EstimateSmartFee)
    (l : List (Nat × Slot)) (c : CycleState) :
    (l.foldl (fun c tg => stepFee f tg c) c).block_height = c.block_height := by
  induction l generalizing c with
  | nil => rfl
  | cons hd tl ih => rw [List.foldl_cons, ih, stepFee_bh]

theorem stepFeeEstimates_bh (f : Nat → Except Error EstimateSmartFee) (c : CycleState) :
    (stepFeeEstimates f c).block_height = c.block_height :=
  foldl_stepFee_bh f feeTargets c

theorem stepChainTips_bh (r : Except Error GetChainTips) (c : CycleState) :
    (stepChainTips r c).block_height = c.block_height := by cases r <;> rfl

theorem stepUptime_bh (r : Except Error Nat) (c : CycleState) :
    (stepUptime r c).block_height = c.block_height := by cases r <;> rfl

/-- When blockchain info failed, block_height is still none and the
block-statistics block is a no-op (collector.rs line 207). -/
theorem stepBlockStats_skip (f : Nat → Except Error GetBlockStats) (c : CycleState)
    (h : c.block_height = none) : stepBlockStats f c = c := by
  obtain ⟨m, he, bh⟩ := c
  cases bh with
  | none => rfl
  | some hh => exact Option.noConfusion h

/-! had_error bookkeeping: each block ors in the failure of its own call. -/

theorem stepBlockchainInfo_he (r : Except Error GetBlockchainInfo) (c : CycleState) :
    (stepBlockchainInfo r c).had_error = (c.had_error || !r.isOk) := by
  cases r <;> simp [stepBlockchainInfo, Except.isOk, Except.toBool]

theorem stepMempoolInfo_he (r : Except Error GetMempoolInfo) (c : CycleState) :
    (stepMempoolInfo r c).had_error = (c.had_error || !r.isOk) := by
  cases r <;> simp [stepMempoolInfo, Except.isOk, Except.toBool]

theorem stepNetworkInfo_he (r : Except Error GetNetworkInfo) (c : CycleState) :
    (stepNetworkInfo r c).had_error = (c.had_error || !r.isOk) := by
  cases r <;> simp [stepNetworkInfo, Except.isOk, Except.toBool]

theorem stepPeerInfo_he (r : Except Error GetPeerInfo) (c : CycleState) :
    (stepPeerInfo r c).had_error = (c.had_error || !r.isOk) := by
  cases r <;> simp [stepPeerInfo, Except.isOk, Except.toBool]

theorem stepMiningInfo_he (r : Except Error MiningInfo) (c : CycleState) :
    (stepMiningInfo r c).had_error = (c.had_error || !r.isOk) := by
  cases r <;> simp [stepMiningInfo, Except.isOk, Except.toBool]

theorem stepChainTxStats_he (r : Except Error ChainTxStats) (c : CycleState) :
    (stepChainTxStats r c).had_error = (c.had_error || !r.isOk) := by
  cases r <;> simp [stepChainTxStats, Except.isOk, Except.toBool]

theorem stepNetTotals_he (r : Except Error GetNetTotals) (c : CycleState) :
    (stepNetTotals r c).had_error = (c.had_error || !r.isOk) := by
  cases r <;> simp [stepNetTotals, Except.isOk, Except.toBool]

theorem stepFee_he (f : Nat → Except Error EstimateSmartFee) (tg : Nat × Slot)
    (c : CycleState) : (stepFee f tg c).had_error = (c.had_error || !(f tg.1).isOk) := by
  cases hf : f tg.1 with
  | ok est => cases hr : est.fee_rate <;> simp [stepFee, hf, hr, Except.isOk, Except.toBool]
  | error e => simp [stepFee, hf, Except.isOk, Except.toBool]

theorem stepFeeEstimates_he (f : Nat → Except Error EstimateSmartFee) (c : CycleState) :
    (stepFeeEstimates f c).had_error =
      ((((c.had_error || !(f 2).isOk) || !(f 6).isOk) || !(f 12).isOk) || !(f 144).isOk) := by
  simp only [stepFeeEstimates, feeTargets, List.foldl_cons, List.foldl_nil, stepFee_he]

theorem stepChainTips_he (r : Except Error GetChainTips) (c : CycleState) :
    (stepChainTips r c).had_error = (c.had_error || !r.isOk) := by
  cases r <;> simp [stepChainTips, Except.isOk, Except.toBool]

theorem stepUptime_he (r : Except Error Nat) (c : CycleState) :
    (stepUptime r c).had_error = (c.had_error || !r.isOk) := by
  cases r <;> simp [stepUptime, Except.isOk, Except.toBool]

theorem stepBlockStats_he (f : Nat → Except Error GetBlockStats) (c : CycleState) :
    (stepBlockStats f c).had_error =
      (c.had_error ||
        match c.block_height with
        | some h => !(f (i64_as_u32 h)).isOk
        | none => false) := by
  obtain ⟨m, he, bh⟩ := c
  cases bh with
  | none => simp [stepBlockStats]
  | some hh =>
      cases hf : f (i64_as_u32 hh) with
      | ok stats => simp [stepBlockStats, hf, Except.isOk, Except.toBool]
      | error e => simp [stepBlockStats, hf, Except.isOk, Except.toBool]

/-! The meta block always writes both meta slots. -/

theorem stepMeta_read_duration (duration : ℚ) (c : CycleState) :
    (stepMeta duration c).metrics .scrape_duration_seconds = duration := rfl

theorem stepMeta_read_error (duration : ℚ) (c : CycleState) :
    (stepMeta duration c).metrics .scrape_error = (if c.had_error then 1 else 0) := rfl

/-! Collect-level reads: what each slot holds after one cycle, per outcome
of the operation owning it. -/

theorem collect_mempool_ok (n : NodeClient) (d : ℚ) (s : BitcoinMetrics)
    (info : GetMempoolInfo) (h : n.get_mempool_info = Except.ok info) :
    collect n d s .mempool_transactions = (info.size : ℚ) ∧
    collect n d s .mempool_bytes = (info.bytes : ℚ) ∧
    collect n d s .mempool_usage = (info.usage : ℚ) ∧
    collect n d s .mempool_max_bytes = (info.max_mempool : ℚ) ∧
    collect n d s .mempool_min_fee = info.mempool_min_fee ∧
    collect n d s .mempool_total_fee = info.total_fee ∧
    collect n d s .mempool_min_relay_tx_fee = info.min_relay_tx_fee ∧
    collect n d s .mempool_incremental_relay_fee = info.incremental_relay_fee ∧
    collect n d s .mempool_unbroadcast_count = (info.unbroadcast_count : ℚ) ∧
    collect n d s .mempool_full_rbf = (if info.full_rbf then 1 else 0) := by
  refine ⟨?_, ?_, ?_, ?_, ?_, ?_, ?_, ?_, ?_, ?_⟩
  all_goals
    unfold collect
    rw [stepMeta_frame _ _ _ (by decide), stepBlockStats_frame _ _ _ (by decide),
        stepUptime_frame _ _ _ (by decide), stepChainTips_frame _ _ _ (by decide),
        stepFeeEstimates_frame _ _ _ (by decide), stepNetTotals_frame _ _ _ (by decide),
        stepChainTxStats_frame _ _ _ (by decide), stepMiningInfo_frame _ _ _ (by decide),
        stepPeerInfo_frame _ _ _ (by decide), stepNetworkInfo_frame _ _ _ (by decide), h]
    rfl

theorem stepBlockchainInfo_err_metrics (e : Error) (c : CycleState) :
    (stepBlockchainInfo (.error e) c).metrics = c.metrics := rfl

theorem stepMempoolInfo_err_metrics (e : Error) (c : CycleState) :
    (stepMempoolInfo (.error e) c).metrics = c.metrics := rfl

theorem stepNetworkInfo_err_metrics (e : Error) (c : CycleState) :
    (stepNetworkInfo (.error e) c).metrics = c.metrics := rfl

theorem stepPeerInfo_err_metrics (e : Error) (c : CycleState) :
    (stepPeerInfo (.error e) c).metrics = c.metrics := rfl

theorem stepMiningInfo_err_metrics (e : Error) (c : CycleState) :
    (stepMiningInfo (.error e) c).metrics = c.metrics := rfl

theorem stepChainTxStats_err_metrics (e : Error) (c : CycleState) :
    (stepChainTxStats (.error e) c).metrics = c.metrics := rfl

theorem stepNetTotals_err_metrics (e : Error) (c : CycleState) :
    (stepNetTotals (.error e) c).metrics = c.metrics := rfl

theorem stepChainTips_err_metrics (e : Error) (c : CycleState) :
    (stepChainTips (.error e) c).metrics = c.metrics := rfl

theorem stepUptime_err_metrics (e : Error) (c : CycleState) :
    (stepUptime (.error e) c).metrics = c.metrics := rfl

theorem collect_blockchain_ok (n : NodeClient) (d : ℚ) (s : BitcoinMetrics)
    (info : GetBlockchainInfo) (h : n.get_blockchain_info = Except.ok info) :
    collect n d s .blocks = (info.blocks : ℚ) ∧
    collect n d s .headers = (info.headers : ℚ) ∧
    collect n d s .difficulty = info.difficulty ∧
    collect n d s .verification_progress = info.verification_progress ∧
    collect n d s .size_on_disk = (info.size_on_disk : ℚ) ∧
    collect n d s .initial_block_download = (if info.initial_block_download then 1 else 0) ∧
    collect n d s .chain_pruned = (if info.pruned then 1 else 0) := by
  refine ⟨?_, ?_, ?_, ?_, ?_, ?_, ?_⟩
  all_goals
    unfold collect
    rw [stepMeta_frame _ _ _ (by decide), stepBlockStats_frame _ _ _ (by decide),
        stepUptime_frame _ _ _ (by decide), stepChainTips_frame _ _ _ (by decide),
        stepFeeEstimates_frame _ _ _ (by decide), stepNetTotals_frame _ _ _ (by decide),
        stepChainTxStats_frame _ _ _ (by decide), stepMiningInfo_frame _ _ _ (by decide),
        stepPeerInfo_frame _ _ _ (by decide), stepNetworkInfo_frame _ _ _ (by decide),
        stepMempoolInfo_frame _ _ _ (by decide), h]
    rfl

theorem collect_blockchain_err (n : NodeClient) (d : ℚ) (s : BitcoinMetrics)
    (e : Error) (h : n.get_blockchain_info = Except.error e) :
    collect n d s .blocks = s .blocks ∧
    collect n d s .headers = s .headers ∧
    collect n d s .difficulty = s .difficulty ∧
    collect n d s .verification_progress = s .verification_progress ∧
    collect n d s .size_on_disk = s .size_on_disk ∧
    collect n d s .initial_block_download = s .initial_block_download ∧
    collect n d s .chain_pruned = s .chain_pruned := by
  refine ⟨?_, ?_, ?_, ?_, ?_, ?_, ?_⟩
  all_goals
    unfold collect
    rw [stepMeta_frame _ _ _ (by decide), stepBlockStats_frame _ _ _ (by decide),
        stepUptime_frame _ _ _ (by decide), stepChainTips_frame _ _ _ (by decide),
        stepFeeEstimates_frame _ _ _ (by decide), stepNetTotals_frame _ _ _ (by decide),
        stepChainTxStats_frame _ _ _ (by decide), stepMiningInfo_frame _ _ _ (by decide),
        stepPeerInfo_frame _ _ _ (by decide), stepNetworkInfo_frame _ _ _ (by decide),
        stepMempoolInfo_frame _ _ _ (by decide), h, stepBlockchainInfo_err_metrics]
    rfl

theorem collect_mempool_err (n : NodeClient) (d : ℚ) (s : BitcoinMetrics)
    (e : Error) (h : n.get_mempool_info = Except.error e) :
    collect n d s .mempool_transactions = s .mempool_transactions ∧
    collect n d s .mempool_bytes = s .mempool_bytes ∧
    collect n d s .mempool_usage = s .mempool_usage ∧
    collect n d s .mempool_max_bytes = s .mempool_max_bytes ∧
    collect n d s .mempool_min_fee = s .mempool_min_fee ∧
    collect n d s .mempool_total_fee = s .mempool_total_fee ∧
    collect n d s .mempool_min_relay_tx_fee = s .mempool_min_relay_tx_fee ∧
    collect n d s .mempool_incremental_relay_fee = s .mempool_incremental_relay_fee ∧
    collect n d s .mempool_unbroadcast_count = s .mempool_unbroadcast_count ∧
    collect n d s .mempool_full_rbf = s .mempool_full_rbf := by
  refine ⟨?_, ?_, ?_, ?_, ?_, ?_, ?_, ?_, ?_, ?_⟩
  all_goals
    unfold collect
    rw [stepMeta_frame _ _ _ (by decide), stepBlockStats_frame _ _ _ (by decide),
        stepUptime_frame _ _ _ (by decide), stepChainTips_frame _ _ _ (by decide),
        stepFeeEstimates_frame _ _ _ (by decide), stepNetTotals_frame _ _ _ (by decide),
        stepChainTxStats_frame _ _ _ (by decide), stepMiningInfo_frame _ _ _ (by decide),
        stepPeerInfo_frame _ _ _ (by decide), stepNetworkInfo_frame _ _ _ (by decide),
        h, stepMempoolInfo_err_metrics, stepBlockchainInfo_frame _ _ _ (by decide)]
    rfl

theorem collect_network_ok (n : NodeClient) (d : ℚ) (s : BitcoinMetrics)
    (info : GetNetworkInfo) (h : n.get_network_info = Except.ok info) :
    collect n d s .connections = (info.connections : ℚ) ∧
    collect n d s .connections_in = (info.connections_in : ℚ) ∧
    collect n d s .connections_out = (info.connections_out : ℚ) ∧
    collect n d s .network_active = (if info.network_active then 1 else 0) ∧
    collect n d s .node_version = (info.version : ℚ) ∧
    collect n d s .protocol_version = (info.protocol_version : ℚ) ∧
    collect n d s .time_offset = (info.time_offset : ℚ) ∧
    collect n d s .relay_fee = info.relay_fee ∧
    collect n d s .incremental_fee = info.incremental_fee := by
  refine ⟨?_, ?_, ?_, ?_, ?_, ?_, ?_, ?_, ?_⟩
  all_goals
    unfold collect
    rw [stepMeta_frame _ _ _ (by decide), stepBlockStats_frame _ _ _ (by decide),
        stepUptime_frame _ _ _ (by decide), stepChainTips_frame _ _ _ (by decide),
        stepFeeEstimates_frame _ _ _ (by decide), stepNetTotals_frame _ _ _ (by decide),
        stepChainTxStats_frame _ _ _ (by decide), stepMiningInfo_frame _ _ _ (by decide),
        stepPeerInfo_frame _ _ _ (by decide), h]
    rfl

theorem collect_network_err (n : NodeClient) (d : ℚ) (s : BitcoinMetrics)
    (e : Error) (h : n.get_network_info = Except.error e) :
    collect n d s .connections = s .connections ∧
    collect n d s .connections_in = s .connections_in ∧
    collect n d s .connections_out = s .connections_out ∧
    collect n d s .network_active = s .network_active ∧
    collect n d s .node_version = s .node_version ∧
    collect n d s .protocol_version = s .protocol_version ∧
    collect n d s .time_offset = s .time_offset ∧
    collect n d s .relay_fee = s .relay_fee ∧
    collect n d s .incremental_fee = s .incremental_fee := by
  refine ⟨?_, ?_, ?_, ?_, ?_, ?_, ?_, ?_, ?_⟩
  all_goals
    unfold collect
    rw [stepMeta_frame _ _ _ (by decide), stepBlockStats_frame _ _ _ (by decide),
        stepUptime_frame _ _ _ (by decide), stepChainTips_frame _ _ _ (by decide),
        stepFeeEstimates_frame _ _ _ (by decide), stepNetTotals_frame _ _ _ (by decide),
        stepChainTxStats_frame _ _ _ (by decide), stepMiningInfo_frame _ _ _ (by decide),
        stepPeerInfo_frame _ _ _ (by decide), h, stepNetworkInfo_err_metrics,
        stepMempoolInfo_frame _ _ _ (by decide), stepBlockchainInfo_frame _ _ _ (by decide)]
    rfl

theorem collect_peers_ok (n : NodeClient) (d : ℚ) (s : BitcoinMetrics)
    (peers : GetPeerInfo) (h : n.get_peer_info = Except.ok peers) :
    collect n d s .peer_count = (peers.length : ℚ) ∧
    collect n d s .peers_inbound = ((peers.filter (fun p => p.inbound)).length : ℚ) ∧
    collect n d s .peers_outbound =
      ((peers.length - (peers.filter (fun p => p.inbound)).length : Nat) : ℚ) ∧
    collect n d s .peers_total_bytes_sent =
      (((peers.map (fun p => p.bytes_sent)).sum : ℕ) : ℚ) ∧
    collect n d s .peers_total_bytes_received =
      (((peers.map (fun p => p.bytes_received)).sum : ℕ) : ℚ) ∧
    collect n d s .peers_avg_ping_seconds =
      (if (peers.filter (fun p => p.ping_time.isSome)).length > 0 then
        ((peers.filterMap (fun p => p.ping_time)).sum : ℚ) /
          ((peers.filter (fun p => p.ping_time.isSome)).length : ℚ)
      else 0) := by
  refine ⟨?_, ?_, ?_, ?_, ?_, ?_⟩
  all_goals
    unfold collect
    rw [stepMeta_frame _ _ _ (by decide), stepBlockStats_frame _ _ _ (by decide),
        stepUptime_frame _ _ _ (by decide), stepChainTips_frame _ _ _ (by decide),
        stepFeeEstimates_frame _ _ _ (by decide), stepNetTotals_frame _ _ _ (by decide),
        stepChainTxStats_frame _ _ _ (by decide), stepMiningInfo_frame _ _ _ (by decide), h]
    rfl

theorem collect_peers_err (n : NodeClient) (d : ℚ) (s : BitcoinMetrics)
    (e : Error) (h : n.get_peer_info = Except.error e) :
    collect n d s .peer_count = s .peer_count ∧
    collect n d s .peers_inbound = s .peers_inbound ∧
    collect n d s .peers_outbound = s .peers_outbound ∧
    collect n d s .peers_total_bytes_sent = s .peers_total_bytes_sent ∧
    collect n d s .peers_total_bytes_received = s .peers_total_bytes_received ∧
    collect n d s .peers_avg_ping_seconds = s .peers_avg_ping_seconds := by
  refine ⟨?_, ?_, ?_, ?_, ?_, ?_⟩
  all_goals
    unfold collect
    rw [stepMeta_frame _ _ _ (by decide), stepBlockStats_frame _ _ _ (by decide),
        stepUptime_frame _ _ _ (by decide), stepChainTips_frame _ _ _ (by decide),
        stepFeeEstimates_frame _ _ _ (by decide), stepNetTotals_frame _ _ _ (by decide),
        stepChainTxStats_frame _ _ _ (by decide), stepMiningInfo_frame _ _ _ (by decide),
        h, stepPeerInfo_err_metrics, stepNetworkInfo_frame _ _ _ (by decide),
        stepMempoolInfo_frame _ _ _ (by decide), stepBlockchainInfo_frame _ _ _ (by decide)]
    rfl

theorem collect_mining_ok (n : NodeClient) (d : ℚ) (s : BitcoinMetrics)
    (info : MiningInfo) (h : n.get_mining_info = Except.ok info) :
    collect n d s .network_hash_ps = info.network_hash_ps ∧
    collect n d s .mining_pooled_tx = (info.pooled_tx : ℚ) := by
  refine ⟨?_, ?_⟩
  all_goals
    unfold collect
    rw [stepMeta_frame _ _ _ (by decide), stepBlockStats_frame _ _ _ (by decide),
        stepUptime_frame _ _ _ (by decide), stepChainTips_frame _ _ _ (by decide),
        stepFeeEstimates_frame _ _ _ (by decide), stepNetTotals_frame _ _ _ (by decide),
        stepChainTxStats_frame _ _ _ (by decide), h]
    rfl

theorem collect_mining_err (n : NodeClient) (d : ℚ) (s : BitcoinMetrics)
    (e : Error) (h : n.get_mining_info = Except.error e) :
    collect n d s .network_hash_ps = s .network_hash_ps ∧
    collect n d s .mining_pooled_tx = s .mining_pooled_tx := by
  refine ⟨?_, ?_⟩
  all_goals
    unfold collect
    rw [stepMeta_frame _ _ _ (by decide), stepBlockStats_frame _ _ _ (by decide),
        stepUptime_frame _ _ _ (by decide), stepChainTips_frame _ _ _ (by decide),
        stepFeeEstimates_frame _ _ _ (by decide), stepNetTotals_frame _ _ _ (by decide),
        stepChainTxStats_frame _ _ _ (by decide), h, stepMiningInfo_err_metrics,
        stepPeerInfo_frame _ _ _ (by decide), stepNetworkInfo_frame _ _ _ (by decide),
        stepMempoolInfo_frame _ _ _ (by decide), stepBlockchainInfo_frame _ _ _ (by decide)]
    rfl

theorem collect_nettotals_ok (n : NodeClient) (d : ℚ) (s : BitcoinMetrics)
    (info : GetNetTotals) (h : n.get_net_totals = Except.ok info) :
    collect n d s .net_total_bytes_received = (info.total_bytes_received : ℚ) ∧
    collect n d s .net_total_bytes_sent = (info.total_bytes_sent : ℚ) := by
  refine ⟨?_, ?_⟩
  all_goals
    unfold collect
    rw [stepMeta_frame _ _ _ (by decide), stepBlockStats_frame _ _ _ (by decide),
        stepUptime_frame _ _ _ (by decide), stepChainTips_frame _ _ _ (by decide),
        stepFeeEstimates_frame _ _ _ (by decide), h]
    rfl

theorem collect_nettotals_err (n : NodeClient) (d : ℚ) (s : BitcoinMetrics)
    (e : Error) (h : n.get_net_totals = Except.error e) :
    collect n d s .net_total_bytes_received = s .net_total_bytes_received ∧
    collect n d s .net_total_bytes_sent = s .net_total_bytes_sent := by
  refine ⟨?_, ?_⟩
  all_goals
    unfold collect
    rw [stepMeta_frame _ _ _ (by decide), stepBlockStats_frame _ _ _ (by decide),
        stepUptime_frame _ _ _ (by decide), stepChainTips_frame _ _ _ (by decide),
        stepFeeEstimates_frame _ _ _ (by decide), h, stepNetTotals_err_metrics,
        stepChainTxStats_frame _ _ _ (by decide), stepMiningInfo_frame _ _ _ (by decide),
        stepPeerInfo_frame _ _ _ (by decide), stepNetworkInfo_frame _ _ _ (by decide),
        stepMempoolInfo_frame _ _ _ (by decide), stepBlockchainInfo_frame _ _ _ (by decide)]
    rfl

theorem collect_tips_ok (n : NodeClient) (d : ℚ) (s : BitcoinMetrics)
    (tips : GetChainTips) (h : n.get_chain_tips = Except.ok tips) :
    collect n d s .chain_tips_count = (tips.length : ℚ) := by
  unfold collect
  rw [stepMeta_frame _ _ _ (by decide), stepBlockStats_frame _ _ _ (by decide),
      stepUptime_frame _ _ _ (by decide), h]
  rfl

theorem collect_tips_err (n : NodeClient) (d : ℚ) (s : BitcoinMetrics)
    (e : Error) (h : n.get_chain_tips = Except.error e) :
    collect n d s .chain_tips_count = s .chain_tips_count := by
  unfold collect
  rw [stepMeta_frame _ _ _ (by decide), stepBlockStats_frame _ _ _ (by decide),
      stepUptime_frame _ _ _ (by decide), h, stepChainTips_err_metrics,
      stepFeeEstimates_frame _ _ _ (by decide), stepNetTotals_frame _ _ _ (by decide),
      stepChainTxStats_frame _ _ _ (by decide), stepMiningInfo_frame _ _ _ (by decide),
      stepPeerInfo_frame _ _ _ (by decide), stepNetworkInfo_frame _ _ _ (by decide),
      stepMempoolInfo_frame _ _ _ (by decide), stepBlockchainInfo_frame _ _ _ (by decide)]
  rfl

theorem collect_uptime_ok (n : NodeClient) (d : ℚ) (s : BitcoinMetrics)
    (seconds : Nat) (h : n.uptime = Except.ok seconds) :
    collect n d s .node_uptime_seconds = (seconds : ℚ) := by
  unfold collect
  rw [stepMeta_frame _ _ _ (by decide), stepBlockStats_frame _ _ _ (by decide), h]
  rfl

theorem collect_uptime_err (n : NodeClient) (d : ℚ) (s : BitcoinMetrics)
    (e : Error) (h : n.uptime = Except.error e) :
    collect n d s .node_uptime_seconds = s .node_uptime_seconds := by
  unfold collect
  rw [stepMeta_frame _ _ _ (by decide), stepBlockStats_frame _ _ _ (by decide), h,
      stepUptime_err_metrics, stepChainTips_frame _ _ _ (by decide),
      stepFeeEstimates_frame _ _ _ (by decide), stepNetTotals_frame _ _ _ (by decide),
      stepChainTxStats_frame _ _ _ (by decide), stepMiningInfo_frame _ _ _ (by decide),
      stepPeerInfo_frame _ _ _ (by decide), stepNetworkInfo_frame _ _ _ (by decide),
      stepMempoolInfo_frame _ _ _ (by decide), stepBlockchainInfo_frame _ _ _ (by decide)]
  rfl

/-! Chain tx stats reads: the three optional fields write only when present. -/

theorem stepChainTxStats_read_count (info : ChainTxStats) (c : CycleState) :
    (stepChainTxStats (.ok info) c).metrics .chain_tx_count = (info.tx_count : ℚ) := by
  obtain ⟨t, txc, wh, wht, wbc, wtc, wiv, txr⟩ := info
  cases txr <;> cases wtc <;> cases wiv <;> rfl

theorem stepChainTxStats_read_wbc (info : ChainTxStats) (c : CycleState) :
    (stepChainTxStats (.ok info) c).metrics .chain_tx_window_block_count =
      (info.window_block_count : ℚ) := by
  obtain ⟨t, txc, wh, wht, wbc, wtc, wiv, txr⟩ := info
  cases txr <;> cases wtc <;> cases wiv <;> rfl

theorem stepChainTxStats_read_rate_some (info : ChainTxStats) (c : CycleState) (r : ℚ)
    (hr : info.tx_rate = some r) :
    (stepChainTxStats (.ok info) c).metrics .chain_tx_rate = r := by
  obtain ⟨t, txc, wh, wht, wbc, wtc, wiv, txr⟩ := info
  subst hr
  cases wtc <;> cases wiv <;> rfl

theorem stepChainTxStats_read_rate_none (info : ChainTxStats) (c : CycleState)
    (hr : info.tx_rate = none) :
    (stepChainTxStats (.ok info) c).metrics .chain_tx_rate = c.metrics .chain_tx_rate := by
  obtain ⟨t, txc, wh, wht, wbc, wtc, wiv, txr⟩ := info
  subst hr
  cases wtc <;> cases wiv <;> rfl

theorem stepChainTxStats_read_wtc_some (info : ChainTxStats) (c : CycleState) (cnt : Int)
    (hc : info.window_tx_count = some cnt) :
    (stepChainTxStats (.ok info) c).metrics .chain_tx_window_tx_count = (cnt : ℚ) := by
  obtain ⟨t, txc, wh, wht, wbc, wtc, wiv, txr⟩ := info
  subst hc
  cases txr <;> cases wiv <;> rfl

theorem stepChainTxStats_read_wtc_none (info : ChainTxStats) (c : CycleState)
    (hc : info.window_tx_count = none) :
    (stepChainTxStats (.ok info) c).metrics .chain_tx_window_tx_count =
      c.metrics .chain_tx_window_tx_count := by
  obtain ⟨t, txc, wh, wht, wbc, wtc, wiv, txr⟩ := info
  subst hc
  cases txr <;> cases wiv <;> rfl

theorem stepChainTxStats_read_wiv_some (info : ChainTxStats) (c : CycleState) (iv : Int)
    (hi : info.window_interval = some iv) :
    (stepChainTxStats (.ok info) c).metrics .chain_tx_window_interval = (iv : ℚ) := by
  obtain ⟨t, txc, wh, wht, wbc, wtc, wiv, txr⟩ := info
  subst hi
  cases txr <;> cases wtc <;> rfl

theorem stepChainTxStats_read_wiv_none (info : ChainTxStats) (c : CycleState)
    (hi : info.window_interval = none) :
    (stepChainTxStats (.ok info) c).metrics .chain_tx_window_interval =
      c.metrics .chain_tx_window_interval := by
  obtain ⟨t, txc, wh, wht, wbc, wtc, wiv, txr⟩ := info
  subst hi
  cases txr <;> cases wtc <;> rfl

theorem collect_chaintx_ok (n : NodeClient) (d : ℚ) (s : BitcoinMetrics)
    (info : ChainTxStats) (h : n.get_chain_tx_stats = Except.ok info) :
    collect n d s .chain_tx_count = (info.tx_count : ℚ) ∧
    collect n d s .chain_tx_window_block_count = (info.window_block_count : ℚ) ∧
    (∀ r, info.tx_rate = some r → collect n d s .chain_tx_rate = r) ∧
    (info.tx_rate = none → collect n d s .chain_tx_rate = s .chain_tx_rate) ∧
    (∀ cnt, info.window_tx_count = some cnt →
      collect n d s .chain_tx_window_tx_count = (cnt : ℚ)) ∧
    (info.window_tx_count = none →
      collect n d s .chain_tx_window_tx_count = s .chain_tx_window_tx_count) ∧
    (∀ iv, info.window_interval = some iv →
      collect n d s .chain_tx_window_interval = (iv : ℚ)) ∧
    (info.window_interval = none →
      collect n d s .chain_tx_window_interval = s .chain_tx_window_interval) := by
  refine ⟨?_, ?_, ?_, ?_, ?_, ?_, ?_, ?_⟩
  · unfold collect
    rw [stepMeta_frame _ _ _ (by decide), stepBlockStats_frame _ _ _ (by decide),
        stepUptime_frame _ _ _ (by decide), stepChainTips_frame _ _ _ (by decide),
        stepFeeEstimates_frame _ _ _ (by decide), stepNetTotals_frame _ _ _ (by decide),
        h, stepChainTxStats_read_count]
  · unfold collect
    rw [stepMeta_frame _ _ _ (by decide), stepBlockStats_frame _ _ _ (by decide),
        stepUptime_frame _ _ _ (by decide), stepChainTips_frame _ _ _ (by decide),
        stepFeeEstimates_frame _ _ _ (by decide), stepNetTotals_frame _ _ _ (by decide),
        h, stepChainTxStats_read_wbc]
  · intro r hr
    unfold collect
    rw [stepMeta_frame _ _ _ (by decide), stepBlockStats_frame _ _ _ (by decide),
        stepUptime_frame _ _ _ (by decide), stepChainTips_frame _ _ _ (by decide),
        stepFeeEstimates_frame _ _ _ (by decide), stepNetTotals_frame _ _ _ (by decide),
        h, stepChainTxStats_read_rate_some _ _ _ hr]
  · intro hr
    unfold collect
    rw [stepMeta_frame _ _ _ (by decide), stepBlockStats_frame _ _ _ (by decide),
        stepUptime_frame _ _ _ (by decide), stepChainTips_frame _ _ _ (by decide),
        stepFeeEstimates_frame _ _ _ (by decide), stepNetTotals_frame _ _ _ (by decide),
        h, stepChainTxStats_read_rate_none _ _ hr, stepMiningInfo_frame _ _ _ (by decide),
        stepPeerInfo_frame _ _ _ (by decide), stepNetworkInfo_frame _ _ _ (by decide),
        stepMempoolInfo_frame _ _ _ (by decide), stepBlockchainInfo_frame _ _ _ (by decide)]
    rfl
  · intro cnt hc
    unfold collect
    rw [stepMeta_frame _ _ _ (by decide), stepBlockStats_frame _ _ _ (by decide),
        stepUptime_frame _ _ _ (by decide), stepChainTips_frame _ _ _ (by decide),
        stepFeeEstimates_frame _ _ _ (by decide), stepNetTotals_frame _ _ _ (by decide),
        h, stepChainTxStats_read_wtc_some _ _ _ hc]
  · intro hc
    unfold collect
    rw [stepMeta_frame _ _ _ (by decide), stepBlockStats_frame _ _ _ (by decide),
        stepUptime_frame _ _ _ (by decide), stepChainTips_frame _ _ _ (by decide),
        stepFeeEstimates_frame _ _ _ (by decide), stepNetTotals_frame _ _ _ (by decide),
        h, stepChainTxStats_read_wtc_none _ _ hc, stepMiningInfo_frame _ _ _ (by decide),
        stepPeerInfo_frame _ _ _ (by decide), stepNetworkInfo_frame _ _ _ (by decide),
        stepMempoolInfo_frame _ _ _ (by decide), stepBlockchainInfo_frame _ _ _ (by decide)]
    rfl
  · intro iv hi
    unfold collect
    rw [stepMeta_frame _ _ _ (by decide), stepBlockStats_frame _ _ _ (by decide),
        stepUptime_frame _ _ _ (by decide), stepChainTips_frame _ _ _ (by decide),
        stepFeeEstimates_frame _ _ _ (by decide), stepNetTotals_frame _ _ _ (by decide),
        h, stepChainTxStats_read_wiv_some _ _ _ hi]
  · intro hi
    unfold collect
    rw [stepMeta_frame _ _ _ (by decide), stepBlockStats_frame _ _ _ (by decide),
        stepUptime_frame _ _ _ (by decide), stepChainTips_frame _ _ _ (by decide),
        stepFeeEstimates_frame _ _ _ (by decide), stepNetTotals_frame _ _ _ (by decide),
        h, stepChainTxStats_read_wiv_none _ _ hi, stepMiningInfo_frame _ _ _ (by decide),
        stepPeerInfo_frame _ _ _ (by decide), stepNetworkInfo_frame _ _ _ (by decide),
        stepMempoolInfo_frame _ _ _ (by decide), stepBlockchainInfo_frame _ _ _ (by decide)]
    rfl

theorem collect_chaintx_err (n : NodeClient) (d : ℚ) (s : BitcoinMetrics)
    (e : Error) (h : n.get_chain_tx_stats = Except.error e) :
    collect n d s .chain_tx_count = s .chain_tx_count ∧
    collect n d s .chain_tx_rate = s .chain_tx_rate ∧
    collect n d s .chain_tx_window_block_count = s .chain_tx_window_block_count ∧
    collect n d s .chain_tx_window_tx_count = s .chain_tx_window_tx_count ∧
    collect n d s .chain_tx_window_interval = s .chain_tx_window_interval := by
  refine ⟨?_, ?_, ?_, ?_, ?_⟩
  all_goals
    unfold collect
    rw [stepMeta_frame _ _ _ (by decide), stepBlockStats_frame _ _ _ (by decide),
        stepUptime_frame _ _ _ (by decide), stepChainTips_frame _ _ _ (by decide),
        stepFeeEstimates_frame _ _ _ (by decide), stepNetTotals_frame _ _ _ (by decide),
        h, stepChainTxStats_err_metrics, stepMiningInfo_frame _ _ _ (by decide),
        stepPeerInfo_frame _ _ _ (by decide), stepNetworkInfo_frame _ _ _ (by decide),
        stepMempoolInfo_frame _ _ _ (by decide), stepBlockchainInfo_frame _ _ _ (by decide)]
    rfl

/-! Fee-estimation loop reads. -/

theorem stepFeeEstimates_unfold (f : Nat → Except Error EstimateSmartFee) (c : CycleState) :
    stepFeeEstimates f c =
      stepFee f (144, .fee_estimate_144_blocks)
        (stepFee f (12, .fee_estimate_12_blocks)
          (stepFee f (6, .fee_estimate_6_blocks)
            (stepFee f (2, .fee_estimate_2_blocks) c))) := by
  simp only [stepFeeEstimates, feeTargets, List.foldl_cons, List.foldl_nil]

theorem stepFee_at_ok_some (f : Nat → Except Error EstimateSmartFee) (t : Nat) (sl : Slot)
    (c : CycleState) (est : EstimateSmartFee) (r : ℚ)
    (h : f t = Except.ok est) (hr : est.fee_rate = some r) :
    (stepFee f (t, sl) c).metrics sl = r := by
  have h1 : f ((t, sl) : Nat × Slot).1 = Except.ok est := h
  simp only [stepFee, h1, hr]
  exact BitcoinMetrics.set_same _ _ _

theorem stepFee_at_ok_none (f : Nat → Except Error EstimateSmartFee) (t : Nat) (sl : Slot)
    (c : CycleState) (est : EstimateSmartFee)
    (h : f t = Except.ok est) (hr : est.fee_rate = none) :
    (stepFee f (t, sl) c).metrics = c.metrics := by
  have h1 : f ((t, sl) : Nat × Slot).1 = Except.ok est := h
  simp only [stepFee, h1, hr]

theorem stepFee_at_err (f : Nat → Except Error EstimateSmartFee) (t : Nat) (sl : Slot)
    (c : CycleState) (e : Error) (h : f t = Except.error e) :
    (stepFee f (t, sl) c).metrics = c.metrics := by
  have h1 : f ((t, sl) : Nat × Slot).1 = Except.error e := h
  simp only [stepFee, h1]

theorem collect_fee2_ok_some (n : NodeClient) (d : ℚ) (s : BitcoinMetrics)
    (est : EstimateSmartFee) (r : ℚ)
    (h : n.estimate_smart_fee 2 = Except.ok est) (hr : est.fee_rate = some r) :
    collect n d s .fee_estimate_2_blocks = r := by
  unfold collect
  rw [stepMeta_frame _ _ _ (by decide), stepBlockStats_frame _ _ _ (by decide),
      stepUptime_frame _ _ _ (by decide), stepChainTips_frame _ _ _ (by decide),
      stepFeeEstimates_unfold, stepFee_frame _ _ _ _ (by decide),
      stepFee_frame _ _ _ _ (by decide), stepFee_frame _ _ _ _ (by decide),
      stepFee_at_ok_some _ _ _ _ _ _ h hr]

theorem collect_fee6_ok_some (n : NodeClient) (d : ℚ) (s : BitcoinMetrics)
    (est : EstimateSmartFee) (r : ℚ)
    (h : n.estimate_smart_fee 6 = Except.ok est) (hr : est.fee_rate = some r) :
    collect n d s .fee_estimate_6_blocks = r := by
  unfold collect
  rw [stepMeta_frame _ _ _ (by decide), stepBlockStats_frame _ _ _ (by decide),
      stepUptime_frame _ _ _ (by decide), stepChainTips_frame _ _ _ (by decide),
      stepFeeEstimates_unfold, stepFee_frame _ _ _ _ (by decide),
      stepFee_frame _ _ _ _ (by decide), stepFee_at_ok_some _ _ _ _ _ _ h hr]

theorem collect_fee12_ok_some (n : NodeClient) (d : ℚ) (s : BitcoinMetrics)
    (est : EstimateSmartFee) (r : ℚ)
    (h : n.estimate_smart_fee 12 = Except.ok est) (hr : est.fee_rate = some r) :
    collect n d s .fee_estimate_12_blocks = r := by
  unfold collect
  rw [stepMeta_frame _ _ _ (by decide), stepBlockStats_frame _ _ _ (by decide),
      stepUptime_frame _ _ _ (by decide), stepChainTips_frame _ _ _ (by decide),
      stepFeeEstimates_unfold, stepFee_frame _ _ _ _ (by decide),
      stepFee_at_ok_some _ _ _ _ _ _ h hr]

theorem collect_fee144_ok_some (n : NodeClient) (d : ℚ) (s : BitcoinMetrics)
    (est : EstimateSmartFee) (r : ℚ)
    (h : n.estimate_smart_fee 144 = Except.ok est) (hr : est.fee_rate = some r) :
    collect n d s .fee_estimate_144_blocks = r := by
  unfold collect
  rw [stepMeta_frame _ _ _ (by decide), stepBlockStats_frame _ _ _ (by decide),
      stepUptime_frame _ _ _ (by decide), stepChainTips_frame _ _ _ (by decide),
      stepFeeEstimates_unfold, stepFee_at_ok_some _ _ _ _ _ _ h hr]

theorem collect_fee2_ok_none (n : NodeClient) (d : ℚ) (s : BitcoinMetrics)
    (est : EstimateSmartFee)
    (h : n.estimate_smart_fee 2 = Except.ok est) (hr : est.fee_rate = none) :
    collect n d s .fee_estimate_2_blocks = s .fee_estimate_2_blocks := by
  unfold collect
  rw [stepMeta_frame _ _ _ (by decide), stepBlockStats_frame _ _ _ (by decide),
      stepUptime_frame _ _ _ (by decide), stepChainTips_frame _ _ _ (by decide),
      stepFeeEstimates_unfold, stepFee_frame _ _ _ _ (by decide),
      stepFee_frame _ _ _ _ (by decide), stepFee_frame _ _ _ _ (by decide),
      stepFee_at_ok_none _ _ _ _ _ h hr, stepNetTotals_frame _ _ _ (by decide),
      stepChainTxStats_frame _ _ _ (by decide), stepMiningInfo_frame _ _ _ (by decide),
      stepPeerInfo_frame _ _ _ (by decide), stepNetworkInfo_frame _ _ _ (by decide),
      stepMempoolInfo_frame _ _ _ (by decide), stepBlockchainInfo_frame _ _ _ (by decide)]
  rfl

theorem collect_fee6_ok_none (n : NodeClient) (d : ℚ) (s : BitcoinMetrics)
    (est : EstimateSmartFee)
    (h : n.estimate_smart_fee 6 = Except.ok est) (hr : est.fee_rate = none) :
    collect n d s .fee_estimate_6_blocks = s .fee_estimate_6_blocks := by
  unfold collect
  rw [stepMeta_frame _ _ _ (by decide), stepBlockStats_frame _ _ _ (by decide),
      stepUptime_frame _ _ _ (by decide), stepChainTips_frame _ _ _ (by decide),
      stepFeeEstimates_unfold, stepFee_frame _ _ _ _ (by decide),
      stepFee_frame _ _ _ _ (by decide), stepFee_at_ok_none _ _ _ _ _ h hr,
      stepFee_frame _ _ _ _ (by decide), stepNetTotals_frame _ _ _ (by decide),
      stepChainTxStats_frame _ _ _ (by decide), stepMiningInfo_frame _ _ _ (by decide),
      stepPeerInfo_frame _ _ _ (by decide), stepNetworkInfo_frame _ _ _ (by decide),
      stepMempoolInfo_frame _ _ _ (by decide), stepBlockchainInfo_frame _ _ _ (by decide)]
  rfl

theorem collect_fee12_ok_none (n : NodeClient) (d : ℚ) (s : BitcoinMetrics)
    (est : EstimateSmartFee)
    (h : n.estimate_smart_fee 12 = Except.ok est) (hr : est.fee_rate = none) :
    collect n d s .fee_estimate_12_blocks = s .fee_estimate_12_blocks := by
  unfold collect
  rw [stepMeta_frame _ _ _ (by decide), stepBlockStats_frame _ _ _ (by decide),
      stepUptime_frame _ _ _ (by decide), stepChainTips_frame _ _ _ (by decide),
      stepFeeEstimates_unfold, stepFee_frame _ _ _ _ (by decide),
      stepFee_at_ok_none _ _ _ _ _ h hr, stepFee_frame _ _ _ _ (by decide),
      stepFee_frame _ _ _ _ (by decide), stepNetTotals_frame _ _ _ (by decide),
      stepChainTxStats_frame _ _ _ (by decide), stepMiningInfo_frame _ _ _ (by decide),
      stepPeerInfo_frame _ _ _ (by decide), stepNetworkInfo_frame _ _ _ (by decide),
      stepMempoolInfo_frame _ _ _ (by decide), stepBlockchainInfo_frame _ _ _ (by decide)]
  rfl

theorem collect_fee144_ok_none (n : NodeClient) (d : ℚ) (s : BitcoinMetrics)
    (est : EstimateSmartFee)
    (h : n.estimate_smart_fee 144 = Except.ok est) (hr : est.fee_rate = none) :
    collect n d s .fee_estimate_144_blocks = s .fee_estimate_144_blocks := by
  unfold collect
  rw [stepMeta_frame _ _ _ (by decide), stepBlockStats_frame _ _ _ (by decide),
      stepUptime_frame _ _ _ (by decide), stepChainTips_frame _ _ _ (by decide),
      stepFeeEstimates_unfold, stepFee_at_ok_none _ _ _ _ _ h hr,
      stepFee_frame _ _ _ _ (by decide), stepFee_frame _ _ _ _ (by decide),
      stepFee_frame _ _ _ _ (by decide), stepNetTotals_frame _ _ _ (by decide),
      stepChainTxStats_frame _ _ _ (by decide), stepMiningInfo_frame _ _ _ (by decide),
      stepPeerInfo_frame _ _ _ (by decide), stepNetworkInfo_frame _ _ _ (by decide),
      stepMempoolInfo_frame _ _ _ (by decide), stepBlockchainInfo_frame _ _ _ (by decide)]
  rfl

theorem collect_fee2_err (n : NodeClient) (d : ℚ) (s : BitcoinMetrics) (e : Error)
    (h : n.estimate_smart_fee 2 = Except.error e) :
    collect n d s .fee_estimate_2_blocks = s .fee_estimate_2_blocks := by
  unfold collect
  rw [stepMeta_frame _ _ _ (by decide), stepBlockStats_frame _ _ _ (by decide),
      stepUptime_frame _ _ _ (by decide), stepChainTips_frame _ _ _ (by decide),
      stepFeeEstimates_unfold, stepFee_frame _ _ _ _ (by decide),
      stepFee_frame _ _ _ _ (by decide), stepFee_frame _ _ _ _ (by decide),
      stepFee_at_err _ _ _ _ _ h, stepNetTotals_frame _ _ _ (by decide),
      stepChainTxStats_frame _ _ _ (by decide), stepMiningInfo_frame _ _ _ (by decide),
      stepPeerInfo_frame _ _ _ (by decide), stepNetworkInfo_frame _ _ _ (by decide),
      stepMempoolInfo_frame _ _ _ (by decide), stepBlockchainInfo_frame _ _ _ (by decide)]
  rfl

theorem collect_fee6_err (n : NodeClient) (d : ℚ) (s : BitcoinMetrics) (e : Error)
    (h : n.estimate_smart_fee 6 = Except.error e) :
    collect n d s .fee_estimate_6_blocks = s .fee_estimate_6_blocks := by
  unfold collect
  rw [stepMeta_frame _ _ _ (by decide), stepBlockStats_frame _ _ _ (by decide),
      stepUptime_frame _ _ _ (by decide), stepChainTips_frame _ _ _ (by decide),
      stepFeeEstimates_unfold, stepFee_frame _ _ _ _ (by decide),
      stepFee_frame _ _ _ _ (by decide), stepFee_at_err _ _ _ _ _ h,
      stepFee_frame _ _ _ _ (by decide), stepNetTotals_frame _ _ _ (by decide),
      stepChainTxStats_frame _ _ _ (by decide), stepMiningInfo_frame _ _ _ (by decide),
      stepPeerInfo_frame _ _ _ (by decide), stepNetworkInfo_frame _ _ _ (by decide),
      stepMempoolInfo_frame _ _ _ (by decide), stepBlockchainInfo_frame _ _ _ (by decide)]
  rfl

theorem collect_fee12_err (n : NodeClient) (d : ℚ) (s : BitcoinMetrics) (e : Error)
    (h : n.estimate_smart_fee 12 = Except.error e) :
    collect n d s .fee_estimate_12_blocks = s .fee_estimate_12_blocks := by
  unfold collect
  rw [stepMeta_frame _ _ _ (by decide), stepBlockStats_frame _ _ _ (by decide),
      stepUptime_frame _ _ _ (by decide), stepChainTips_frame _ _ _ (by decide),
      stepFeeEstimates_unfold, stepFee_frame _ _ _ _ (by decide),
      stepFee_at_err _ _ _ _ _ h, stepFee_frame _ _ _ _ (by decide),
      stepFee_frame _ _ _ _ (by decide), stepNetTotals_frame _ _ _ (by decide),
      stepChainTxStats_frame _ _ _ (by decide), stepMiningInfo_frame _ _ _ (by decide),
      stepPeerInfo_frame _ _ _ (by decide), stepNetworkInfo_frame _ _ _ (by decide),
      stepMempoolInfo_frame _ _ _ (by decide), stepBlockchainInfo_frame _ _ _ (by decide)]
  rfl

theorem collect_fee144_err (n : NodeClient) (d : ℚ) (s : BitcoinMetrics) (e : Error)
    (h : n.estimate_smart_fee 144 = Except.error e) :
    collect n d s .fee_estimate_144_blocks = s .fee_estimate_144_blocks := by
  unfold collect
  rw [stepMeta_frame _ _ _ (by decide), stepBlockStats_frame _ _ _ (by decide),
      stepUptime_frame _ _ _ (by decide), stepChainTips_frame _ _ _ (by decide),
      stepFeeEstimates_unfold, stepFee_at_err _ _ _ _ _ h,
      stepFee_frame _ _ _ _ (by decide), stepFee_frame _ _ _ _ (by decide),
      stepFee_frame _ _ _ _ (by decide), stepNetTotals_frame _ _ _ (by decide),
      stepChainTxStats_frame _ _ _ (by decide), stepMiningInfo_frame _ _ _ (by decide),
      stepPeerInfo_frame _ _ _ (by decide), stepNetworkInfo_frame _ _ _ (by decide),
      stepMempoolInfo_frame _ _ _ (by decide), stepBlockchainInfo_frame _ _ _ (by decide)]
  rfl

/-! Latest-block-stats reads: guarded by the height recorded in step one. -/

theorem stepBlockStats_metrics_ok (f : Nat → Except Error GetBlockStats) (c : CycleState)
    (height : Int) (stats : GetBlockStats)
    (hbh : c.block_height = some height) (hf : f (i64_as_u32 height) = Except.ok stats) :
    (stepBlockStats f c).metrics =
      (c.metrics.set .latest_block_txs (stats.txs : ℚ)
        |>.set .latest_block_size (stats.total_size : ℚ)
        |>.set .latest_block_weight (stats.total_weight : ℚ)
        |>.set .latest_block_avg_fee (stats.average_fee : ℚ)
        |>.set .latest_block_avg_fee_rate (stats.average_fee_rate : ℚ)
        |>.set .latest_block_median_fee (stats.median_fee : ℚ)
        |>.set .latest_block_min_fee (stats.minimum_fee : ℚ)
        |>.set .latest_block_max_fee (stats.max_fee : ℚ)
        |>.set .latest_block_min_fee_rate (stats.minimum_fee_rate : ℚ)
        |>.set .latest_block_max_fee_rate (stats.max_fee_rate : ℚ)
        |>.set .latest_block_total_fee (stats.total_fee : ℚ)
        |>.set .latest_block_subsidy (stats.subsidy : ℚ)
        |>.set .latest_block_inputs (stats.inputs : ℚ)
        |>.set .latest_block_outputs (stats.outputs : ℚ)
        |>.set .latest_block_segwit_txs (stats.segwit_txs : ℚ)
        |>.set .latest_block_segwit_total_size (stats.segwit_total_size : ℚ)
        |>.set .latest_block_segwit_total_weight (stats.segwit_total_weight : ℚ)
        |>.set .latest_block_total_out (stats.total_out : ℚ)
        |>.set .latest_block_utxo_increase (stats.utxo_increase : ℚ)
        |>.set .latest_block_fee_rate_10th (stats.fee_rate_percentiles 0 : ℚ)
        |>.set .latest_block_fee_rate_25th (stats.fee_rate_percentiles 1 : ℚ)
        |>.set .latest_block_fee_rate_50th (stats.fee_rate_percentiles 2 : ℚ)
        |>.set .latest_block_fee_rate_75th (stats.fee_rate_percentiles 3 : ℚ)
        |>.set .latest_block_fee_rate_90th (stats.fee_rate_percentiles 4 : ℚ)) := by
  simp only [stepBlockStats, hbh, hf]

theorem stepBlockStats_metrics_err (f : Nat → Except Error GetBlockStats) (c : CycleState)
    (height : Int) (e : Error)
    (hbh : c.block_height = some height) (hf : f (i64_as_u32 height) = Except.error e) :
    (stepBlockStats f c).metrics = c.metrics := by
  simp only [stepBlockStats, hbh, hf]

theorem collect_blockstats_ok (n : NodeClient) (d : ℚ) (s : BitcoinMetrics)
    (info : GetBlockchainInfo) (stats : GetBlockStats)
    (hbc : n.get_blockchain_info = Except.ok info)
    (hbs : n.get_block_stats_by_height (i64_as_u32 info.blocks) = Except.ok stats) :
    collect n d s .latest_block_txs = (stats.txs : ℚ) ∧
    collect n d s .latest_block_size = (stats.total_size : ℚ) ∧
    collect n d s .latest_block_weight = (stats.total_weight : ℚ) ∧
    collect n d s .latest_block_avg_fee = (stats.average_fee : ℚ) ∧
    collect n d s .latest_block_avg_fee_rate = (stats.average_fee_rate : ℚ) ∧
    collect n d s .latest_block_median_fee = (stats.median_fee : ℚ) ∧
    collect n d s .latest_block_min_fee = (stats.minimum_fee : ℚ) ∧
    collect n d s .latest_block_max_fee = (stats.max_fee : ℚ) ∧
    collect n d s .latest_block_min_fee_rate = (stats.minimum_fee_rate : ℚ) ∧
    collect n d s .latest_block_max_fee_rate = (stats.max_fee_rate : ℚ) ∧
    collect n d s .latest_block_total_fee = (stats.total_fee : ℚ) ∧
    collect n d s .latest_block_subsidy = (stats.subsidy : ℚ) ∧
    collect n d s .latest_block_inputs = (stats.inputs : ℚ) ∧
    collect n d s .latest_block_outputs = (stats.outputs : ℚ) ∧
    collect n d s .latest_block_segwit_txs = (stats.segwit_txs : ℚ) ∧
    collect n d s .latest_block_segwit_total_size = (stats.segwit_total_size : ℚ) ∧
    collect n d s .latest_block_segwit_total_weight = (stats.segwit_total_weight : ℚ) ∧
    collect n d s .latest_block_total_out = (stats.total_out : ℚ) ∧
    collect n d s .latest_block_utxo_increase = (stats.utxo_increase : ℚ) ∧
    collect n d s .latest_block_fee_rate_10th = (stats.fee_rate_percentiles 0 : ℚ) ∧
    collect n d s .latest_block_fee_rate_25th = (stats.fee_rate_percentiles 1 : ℚ) ∧
    collect n d s .latest_block_fee_rate_50th = (stats.fee_rate_percentiles 2 : ℚ) ∧
    collect n d s .latest_block_fee_rate_75th = (stats.fee_rate_percentiles 3 : ℚ) ∧
    collect n d s .latest_block_fee_rate_90th = (stats.fee_rate_percentiles 4 : ℚ) := by
  refine ⟨?_, ?_, ?_, ?_, ?_, ?_, ?_, ?_, ?_, ?_, ?_, ?_, ?_, ?_, ?_, ?_, ?_, ?_, ?_, ?_,
    ?_, ?_, ?_, ?_⟩
  all_goals
    unfold collect
    rw [stepMeta_frame _ _ _ (by decide),
        stepBlockStats_metrics_ok _ _ _ _
          (by
            rw [stepUptime_bh, stepChainTips_bh, stepFeeEstimates_bh, stepNetTotals_bh,
                stepChainTxStats_bh, stepMiningInfo_bh, stepPeerInfo_bh, stepNetworkInfo_bh,
                stepMempoolInfo_bh, hbc, stepBlockchainInfo_bh_ok])
          hbs]
    rfl

theorem collect_blockstats_err (n : NodeClient) (d : ℚ) (s : BitcoinMetrics)
    (info : GetBlockchainInfo) (e : Error)
    (hbc : n.get_blockchain_info = Except.ok info)
    (hbs : n.get_block_stats_by_height (i64_as_u32 info.blocks) = Except.error e) :
    collect n d s .latest_block_txs = s .latest_block_txs ∧
    collect n d s .latest_block_size = s .latest_block_size ∧
    collect n d s .latest_block_weight = s .latest_block_weight ∧
    collect n d s .latest_block_avg_fee = s .latest_block_avg_fee ∧
    collect n d s .latest_block_avg_fee_rate = s .latest_block_avg_fee_rate ∧
    collect n d s .latest_block_median_fee = s .latest_block_median_fee ∧
    collect n d s .latest_block_min_fee = s .latest_block_min_fee ∧
    collect n d s .latest_block_max_fee = s .latest_block_max_fee ∧
    collect n d s .latest_block_min_fee_rate = s .latest_block_min_fee_rate ∧
    collect n d s .latest_block_max_fee_rate = s .latest_block_max_fee_rate ∧
    collect n d s .latest_block_total_fee = s .latest_block_total_fee ∧
    collect n d s .latest_block_subsidy = s .latest_block_subsidy ∧
    collect n d s .latest_block_inputs = s .latest_block_inputs ∧
    collect n d s .latest_block_outputs = s .latest_block_outputs ∧
    collect n d s .latest_block_segwit_txs = s .latest_block_segwit_txs ∧
    collect n d s .latest_block_segwit_total_size = s .latest_block_segwit_total_size ∧
    collect n d s .latest_block_segwit_total_weight = s .latest_block_segwit_total_weight ∧
    collect n d s .latest_block_total_out = s .latest_block_total_out ∧
    collect n d s .latest_block_utxo_increase = s .latest_block_utxo_increase ∧
    collect n d s .latest_block_fee_rate_10th = s .latest_block_fee_rate_10th ∧
    collect n d s .latest_block_fee_rate_25th = s .latest_block_fee_rate_25th ∧
    collect n d s .latest_block_fee_rate_50th = s .latest_block_fee_rate_50th ∧
    collect n d s .latest_block_fee_rate_75th = s .latest_block_fee_rate_75th ∧
    collect n d s .latest_block_fee_rate_90th = s .latest_block_fee_rate_90th := by
  refine ⟨?_, ?_, ?_, ?_, ?_, ?_, ?_, ?_, ?_, ?_, ?_, ?_, ?_, ?_, ?_, ?_, ?_, ?_, ?_, ?_,
    ?_, ?_, ?_, ?_⟩
  all_goals
    unfold collect
    rw [stepMeta_frame _ _ _ (by decide),
        stepBlockStats_metrics_err _ _ _ _
          (by
            rw [stepUptime_bh, stepChainTips_bh, stepFeeEstimates_bh, stepNetTotals_bh,
                stepChainTxStats_bh, stepMiningInfo_bh, stepPeerInfo_bh, stepNetworkInfo_bh,
                stepMempoolInfo_bh, hbc, stepBlockchainInfo_bh_ok])
          hbs,
        stepUptime_frame _ _ _ (by decide), stepChainTips_frame _ _ _ (by decide),
        stepFeeEstimates_frame _ _ _ (by decide), stepNetTotals_frame _ _ _ (by decide),
        stepChainTxStats_frame _ _ _ (by decide), stepMiningInfo_frame _ _ _ (by decide),
        stepPeerInfo_frame _ _ _ (by decide), stepNetworkInfo_frame _ _ _ (by decide),
        stepMempoolInfo_frame _ _ _ (by decide), stepBlockchainInfo_frame _ _ _ (by decide)]
    rfl

/-- When blockchain info failed, the latest-block slots retain their prior
values: block_height stays none, so the block-statistics block is skipped. -/
theorem collect_skip_blockstats (n : NodeClient) (d : ℚ) (s : BitcoinMetrics)
    (e : Error) (hbc : n.get_blockchain_info = Except.error e) :
    ∀ slot, ownedByBlockStats slot = true → collect n d s slot = s slot := by
  intro slot hs
  cases slot <;> first
  | exact absurd hs (by decide)
  | · unfold collect
      rw [stepMeta_frame _ _ _ (by decide),
          stepBlockStats_skip _ _
            (by
              rw [stepUptime_bh, stepChainTips_bh, stepFeeEstimates_bh, stepNetTotals_bh,
                  stepChainTxStats_bh, stepMiningInfo_bh, stepPeerInfo_bh, stepNetworkInfo_bh,
                  stepMempoolInfo_bh, hbc, stepBlockchainInfo_bh_err]
              rfl),
          stepUptime_frame _ _ _ (by decide), stepChainTips_frame _ _ _ (by decide),
          stepFeeEstimates_frame _ _ _ (by decide), stepNetTotals_frame _ _ _ (by decide),
          stepChainTxStats_frame _ _ _ (by decide), stepMiningInfo_frame _ _ _ (by decide),
          stepPeerInfo_frame _ _ _ (by decide), stepNetworkInfo_frame _ _ _ (by decide),
          stepMempoolInfo_frame _ _ _ (by decide), stepBlockchainInfo_frame _ _ _ (by decide)]
      rfl

/-! Meta-slot reads. -/

theorem collect_scrape_duration (n : NodeClient) (d : ℚ) (s : BitcoinMetrics) :
    collect n d s .scrape_duration_seconds = d := rfl

theorem collect_scrape_error_eq (n : NodeClient) (d : ℚ) (s : BitcoinMetrics) :
    collect n d s .scrape_error = (if anyFailure n then 1 else 0) := by
  unfold collect
  rw [stepMeta_read_error]
  have he : (stepBlockStats n.get_block_stats_by_height
      (stepUptime n.uptime
        (stepChainTips n.get_chain_tips
          (stepFeeEstimates n.estimate_smart_fee
            (stepNetTotals n.get_net_totals
              (stepChainTxStats n.get_chain_tx_stats
                (stepMiningInfo n.get_mining_info
                  (stepPeerInfo n.get_peer_info
                    (stepNetworkInfo n.get_network_info
                      (stepMempoolInfo n.get_mempool_info
                        (stepBlockchainInfo n.get_blockchain_info
                          (initCycle s)))))))))))).had_error = anyFailure n := by
    rw [stepBlockStats_he]
    simp only [stepUptime_he, stepChainTips_he, stepFeeEstimates_he, stepNetTotals_he,
      stepChainTxStats_he, stepMiningInfo_he, stepPeerInfo_he, stepNetworkInfo_he,
      stepMempoolInfo_he, stepBlockchainInfo_he, stepUptime_bh, stepChainTips_bh,
      stepFeeEstimates_bh, stepNetTotals_bh, stepChainTxStats_bh, stepMiningInfo_bh,
      stepPeerInfo_bh, stepNetworkInfo_bh, stepMempoolInfo_bh]
    cases hbc : n.get_blockchain_info with
    | ok info =>
        rw [stepBlockchainInfo_bh_ok]
        simp [anyFailure, hbc, initCycle, Except.isOk, Except.toBool]
    | error e =>
        rw [stepBlockchainInfo_bh_err]
        simp [anyFailure, hbc, initCycle, Except.isOk, Except.toBool]
  rw [he]

/-! Helpers for the claim proofs. -/

theorem isOk_exists {α : Type} (x : Except Error α) (h : x.isOk = true) :
    ∃ a, x = Except.ok a := by
  cases x with
  | ok a => exact ⟨a, rfl⟩
  | error e => simp [Except.isOk, Except.toBool] at h

/-- Counting the peers that report a ping is counting the reported pings. -/
theorem length_filter_isSome (l : List PeerInfo) :
    (l.filter (fun p => p.ping_time.isSome)).length =
      (l.filterMap (fun p => p.ping_time)).length := by
  induction l with
  | nil => rfl
  | cons hd tl ih =>
      cases hpt : hd.ping_time <;>
        simp [List.filter_cons, List.filterMap_cons, hpt, ih]

theorem stepFee_congr (f g : Nat → Except Error EstimateSmartFee) (t : Nat) (sl : Slot)
    (c : CycleState) (h : f t = g t) :
    stepFee f (t, sl) c = stepFee g (t, sl) c := by
  have h1 : f ((t, sl) : Nat × Slot).1 = g ((t, sl) : Nat × Slot).1 := h
  simp only [stepFee, h1]

/-- The fee loop consults the fee operation at exactly the four fixed targets. -/
theorem stepFeeEstimates_congr (f g : Nat → Except Error EstimateSmartFee) (c : CycleState)
    (h2 : f 2 = g 2) (h6 : f 6 = g 6) (h12 : f 12 = g 12) (h144 : f 144 = g 144) :
    stepFeeEstimates f c = stepFeeEstimates g c := by
  rw [stepFeeEstimates_unfold, stepFeeEstimates_unfold,
      stepFee_congr f g 2 _ _ h2, stepFee_congr f g 6 _ _ h6,
      stepFee_congr f g 12 _ _ h12, stepFee_congr f g 144 _ _ h144]

/-!
Decode model for the two corrected wire types of node.rs.

Modelled from the spec and the doc comments in node.rs: the serde decoding
semantics themselves live in external crates, so they are modelled here from
the design note — a JSON number decodes as floating-point unconditionally,
while integer decoding of a JSON number fails on a non-integral value (this
failure is what the node.rs doc comments describe for the upstream i64
declarations of networkhashps and txrate). Field-by-field decoding follows
the field types declared by MiningInfo and ChainTxStats in node.rs.
-/

/-- A JSON number of the wire protocol, modelled as a rational. -/
abbrev JsonNumber := ℚ

/-- Floating-point decode of a JSON number (an f64 field): always succeeds. -/
def decodeF64 (v : JsonNumber) : Except String ℚ := Except.ok v

/-- Integer decode of a JSON number (an i64 field): fails on a non-integral
value. -/
def decodeI64 (v : JsonNumber) : Except String Int :=
  if v.den = 1 then Except.ok v.num else Except.error "invalid type"

/-- Unsigned integer decode of a JSON number (a u64 field). -/
def decodeU64 (v : JsonNumber) : Except String Nat :=
  if v.den = 1 ∧ 0 ≤ v.num then Except.ok v.num.toNat else Except.error "invalid type"

/-- Decode of an optional numeric field: absent is fine, present must decode. -/
def decodeOptNum {α : Type} (dec : JsonNumber → Except String α) :
    Option JsonNumber → Except String (Option α)
  | none => Except.ok none
  | some v => (dec v).map some

/-- The raw numeric/string payload of a getmininginfo response. -/
structure MiningInfoJson where
  blocks : JsonNumber
  currentblockweight : Option JsonNumber
  currentblocktx : Option JsonNumber
  difficulty : JsonNumber
  networkhashps : JsonNumber
  pooledtx : JsonNumber
  chain : String
  warnings : List String

/-- Decode a getmininginfo response per the field types MiningInfo declares
in node.rs: networkhashps is read as floating-point. -/
def decodeMiningInfo (j : MiningInfoJson) : Except String MiningInfo := do
  let blocks ← decodeU64 j.blocks
  let cbw ← decodeOptNum decodeU64 j.currentblockweight
  let cbt ← decodeOptNum decodeI64 j.currentblocktx
  let difficulty ← decodeF64 j.difficulty
  let nhps ← decodeF64 j.networkhashps
  let ptx ← decodeI64 j.pooledtx
  Except.ok
    { blocks := blocks, current_block_weight := cbw, current_block_tx := cbt,
      difficulty := difficulty, network_hash_ps := nhps, pooled_tx := ptx,
      chain := j.chain, warnings := j.warnings }

/-- The raw numeric/string payload of a getchaintxstats response. -/
structure ChainTxStatsJson where
  time : JsonNumber
  txcount : JsonNumber
  window_final_block_hash : String
  window_final_block_height : JsonNumber
  window_block_count : JsonNumber
  window_tx_count : Option JsonNumber
  window_interval : Option JsonNumber
  txrate : Option JsonNumber

/-- Decode a getchaintxstats response per the field types ChainTxStats
declares in node.rs: txrate is read as an optional floating-point. -/
def decodeChainTxStats (k : ChainTxStatsJson) : Except String ChainTxStats := do
  let time ← decodeI64 k.time
  let txc ← decodeI64 k.txcount
  let wht ← decodeI64 k.window_final_block_height
  let wbc ← decodeI64 k.window_block_count
  let wtc ← decodeOptNum decodeI64 k.window_tx_count
  let wiv ← decodeOptNum decodeI64 k.window_interval
  let rate ← decodeOptNum decodeF64 k.txrate
  Except.ok
    { time := time, tx_count := txc,
      window_final_block_hash := k.window_final_block_hash,
      window_final_block_height := wht, window_block_count := wbc,
      window_tx_count := wtc, window_interval := wiv, tx_rate := rate }

theorem isOkStr_exists {α : Type} (x : Except String α) (h : x.isOk = true) :
    ∃ a, x = Except.ok a := by
  cases x with
  | ok a => exact ⟨a, rfl⟩
  | error e => simp [Except.isOk, Except.toBool] at h

/-! Concrete cycle inputs used by the witnesses. -/

/-- The all-zero gauge collection of process start. -/
def m0 : BitcoinMetrics := fun _ => 0

/-- An arbitrary pre-cycle gauge collection. -/
def m37 : BitcoinMetrics := fun _ => 37

def infoA : GetBlockchainInfo :=
  { blocks := 800000, headers := 800001, difficulty := 5/2,
    verification_progress := 99/100, size_on_disk := 600,
    initial_block_download := false, pruned := false }

def mempoolA : GetMempoolInfo :=
  { size := 5000, bytes := 3000000, usage := 10000000, max_mempool := 300000000,
    mempool_min_fee := 1/100000, total_fee := 1/2, min_relay_tx_fee := 1/100000,
    incremental_relay_fee := 1/100000, unbroadcast_count := 3, full_rbf := false }

def networkA : GetNetworkInfo :=
  { version := 250000, protocol_version := 70016, time_offset := -2,
    connections := 3, connections_in := 1, connections_out := 2,
    network_active := true, relay_fee := 1/100000, incremental_fee := 1/100000 }

def peersA : GetPeerInfo :=
  [{ inbound := false, bytes_sent := 50000, bytes_received := 100000,
     ping_time := some (1/20) },
   { inbound := true, bytes_sent := 30000, bytes_received := 60000,
     ping_time := some (1/10) },
   { inbound := true, bytes_sent := 1, bytes_received := 2, ping_time := none }]

def miningA : MiningInfo :=
  { blocks := 800000, current_block_weight := some 3993000,
    current_block_tx := some 2500, difficulty := 5/2, network_hash_ps := 9/2,
    pooled_tx := 5000, chain := "main", warnings := [] }

def chainTxA : ChainTxStats :=
  { time := 1700000000, tx_count := 900000000, window_final_block_hash := "",
    window_final_block_height := 800000, window_block_count := 4032,
    window_tx_count := some 12000000, window_interval := some 2419200,
    tx_rate := some (124/25) }

def netTotalsA : GetNetTotals := { total_bytes_received := 5000, total_bytes_sent := 3000 }

def estA (t : Nat) : Except Error EstimateSmartFee :=
  Except.ok { fee_rate := some ((t : ℚ) / 100), errors := none, blocks := t }

def tipsA : GetChainTips :=
  [{ height := 800000, hash := "", branch_length := 0, status := .Active },
   { height := 799998, hash := "", branch_length := 2, status := .ValidFork }]

def statsA : GetBlockStats :=
  { average_fee := 15000, average_fee_rate := 25,
    fee_rate_percentiles := ![5, 10, 20, 50, 100], inputs := 6000,
    max_fee := 500000, max_fee_rate := 200, median_fee := 10000,
    minimum_fee := 500, minimum_fee_rate := 1, outputs := 8000,
    subsidy := 625000000, segwit_total_size := 1500000,
    segwit_total_weight := 3000000, segwit_txs := 2000,
    total_out := 500000000000, total_size := 2000000, total_weight := 3993000,
    total_fee := 37500000, txs := 2500, utxo_increase := 500 }

/-- A cycle in which every operation succeeds. -/
def nodeA : NodeClient :=
  { get_blockchain_info := .ok infoA, get_mempool_info := .ok mempoolA,
    get_network_info := .ok networkA, get_peer_info := .ok peersA,
    get_mining_info := .ok miningA, get_chain_tx_stats := .ok chainTxA,
    get_net_totals := .ok netTotalsA, estimate_smart_fee := estA,
    get_chain_tips := .ok tipsA, uptime := .ok 86400,
    get_block_stats_by_height := fun _ => .ok statsA }

/-- A cycle in which every operation fails. -/
def nodeF : NodeClient :=
  { get_blockchain_info := .error (.Config "unreachable"),
    get_mempool_info := .error (.Config "unreachable"),
    get_network_info := .error (.Config "unreachable"),
    get_peer_info := .error (.Config "unreachable"),
    get_mining_info := .error (.Config "unreachable"),
    get_chain_tx_stats := .error (.Config "unreachable"),
    get_net_totals := .error (.Config "unreachable"),
    estimate_smart_fee := fun _ => .error (.Config "unreachable"),
    get_chain_tips := .error (.Config "unreachable"),
    uptime := .error (.Config "unreachable"),
    get_block_stats_by_height := fun _ => .error (.Config "unreachable") }

def chainTxN : ChainTxStats :=
  { chainTxA with window_tx_count := none, window_interval := none, tx_rate := none }

def estN (t : Nat) : Except Error EstimateSmartFee :=
  Except.ok { fee_rate := none, errors := none, blocks := t }

/-- A cycle in which every operation succeeds but every optional field is
absent. -/
def nodeN : NodeClient :=
  { nodeA with get_chain_tx_stats := .ok chainTxN, estimate_smart_fee := estN }

def miningJsonA : MiningInfoJson :=
  { blocks := 800000, currentblockweight := some 3993000,
    currentblocktx := some 2500, difficulty := 100, networkhashps := mkRat 9 2,
    pooledtx := 5000, chain := "main", warnings := [] }

def chainTxJsonA : ChainTxStatsJson :=
  { time := 1700000000, txcount := 900000000, window_final_block_hash := "",
    window_final_block_height := 800000, window_block_count := 4032,
    window_tx_count := some 12000000, window_interval := some 2419200,
    txrate := some (mkRat 31 7) }

/-! The claims. -/

/-- Claim C1: in every scrape cycle — whether or not other sources fail —
every metric slot belonging to a source operation that succeeded in that
cycle is set to the value just fetched from that source (aggregates for the
peer list, per-target rates for the fee estimates, the guarded
block-statistics values under a successful status call); in particular, when
every source succeeds, every slot reflects the just-fetched value. -/
theorem success_slots_reflect_fetched (n : NodeClient) (d : ℚ) (s : BitcoinMetrics) :
    (∀ info, n.get_blockchain_info = Except.ok info →
      collect n d s .blocks = (info.blocks : ℚ) ∧
      collect n d s .headers = (info.headers : ℚ) ∧
      collect n d s .difficulty = info.difficulty ∧
      collect n d s .verification_progress = info.verification_progress ∧
      collect n d s .size_on_disk = (info.size_on_disk : ℚ) ∧
      collect n d s .initial_block_download = (if info.initial_block_download then 1 else 0) ∧
      collect n d s .chain_pruned = (if info.pruned then 1 else 0)) ∧
    (∀ info, n.get_mempool_info = Except.ok info →
      collect n d s .mempool_transactions = (info.size : ℚ) ∧
      collect n d s .mempool_bytes = (info.bytes : ℚ) ∧
      collect n d s .mempool_usage = (info.usage : ℚ) ∧
      collect n d s .mempool_max_bytes = (info.max_mempool : ℚ) ∧
      collect n d s .mempool_min_fee = info.mempool_min_fee ∧
      collect n d s .mempool_total_fee = info.total_fee ∧
      collect n d s .mempool_min_relay_tx_fee = info.min_relay_tx_fee ∧
      collect n d s .mempool_incremental_relay_fee = info.incremental_relay_fee ∧
      collect n d s .mempool_unbroadcast_count = (info.unbroadcast_count : ℚ) ∧
      collect n d s .mempool_full_rbf = (if info.full_rbf then 1 else 0)) ∧
    (∀ info, n.get_network_info = Except.ok info →
      collect n d s .connections = (info.connections : ℚ) ∧
      collect n d s .connections_in = (info.connections_in : ℚ) ∧
      collect n d s .connections_out = (info.connections_out : ℚ) ∧
      collect n d s .network_active = (if info.network_active then 1 else 0) ∧
      collect n d s .node_version = (info.version : ℚ) ∧
      collect n d s .protocol_version = (info.protocol_version : ℚ) ∧
      collect n d s .time_offset = (info.time_offset : ℚ) ∧
      collect n d s .relay_fee = info.relay_fee ∧
      collect n d s .incremental_fee = info.incremental_fee) ∧
    (∀ peers, n.get_peer_info = Except.ok peers →
      collect n d s .peer_count = (peers.length : ℚ) ∧
      collect n d s .peers_inbound = ((peers.filter (fun p => p.inbound)).length : ℚ) ∧
      collect n d s .peers_outbound =
        ((peers.length - (peers.filter (fun p => p.inbound)).length : Nat) : ℚ) ∧
      collect n d s .peers_total_bytes_sent =
        (((peers.map (fun p => p.bytes_sent)).sum : ℕ) : ℚ) ∧
      collect n d s .peers_total_bytes_received =
        (((peers.map (fun p => p.bytes_received)).sum : ℕ) : ℚ) ∧
      collect n d s .peers_avg_ping_seconds =
        (if (peers.filter (fun p => p.ping_time.isSome)).length > 0 then
          ((peers.filterMap (fun p => p.ping_time)).sum : ℚ) /
            ((peers.filter (fun p => p.ping_time.isSome)).length : ℚ)
        else 0)) ∧
    (∀ info, n.get_mining_info = Except.ok info →
      collect n d s .network_hash_ps = info.network_hash_ps ∧
      collect n d s .mining_pooled_tx = (info.pooled_tx : ℚ)) ∧
    (∀ info, n.get_chain_tx_stats = Except.ok info →
      collect n d s .chain_tx_count = (info.tx_count : ℚ) ∧
      collect n d s .chain_tx_window_block_count = (info.window_block_count : ℚ) ∧
      (∀ r, info.tx_rate = some r → collect n d s .chain_tx_rate = r) ∧
      (info.tx_rate = none → collect n d s .chain_tx_rate = s .chain_tx_rate) ∧
      (∀ cnt, info.window_tx_count = some cnt →
        collect n d s .chain_tx_window_tx_count = (cnt : ℚ)) ∧
      (info.window_tx_count = none →
        collect n d s .chain_tx_window_tx_count = s .chain_tx_window_tx_count) ∧
      (∀ iv, info.window_interval = some iv →
        collect n d s .chain_tx_window_interval = (iv : ℚ)) ∧
      (info.window_interval = none →
        collect n d s .chain_tx_window_interval = s .chain_tx_window_interval)) ∧
    (∀ info, n.get_net_totals = Except.ok info →
      collect n d s .net_total_bytes_received = (info.total_bytes_received : ℚ) ∧
      collect n d s .net_total_bytes_sent = (info.total_bytes_sent : ℚ)) ∧
    (∀ est r, n.estimate_smart_fee 2 = Except.ok est → est.fee_rate = some r →
      collect n d s .fee_estimate_2_blocks = r) ∧
    (∀ est r, n.estimate_smart_fee 6 = Except.ok est → est.fee_rate = some r →
      collect n d s .fee_estimate_6_blocks = r) ∧
    (∀ est r, n.estimate_smart_fee 12 = Except.ok est → est.fee_rate = some r →
      collect n d s .fee_estimate_12_blocks = r) ∧
    (∀ est r, n.estimate_smart_fee 144 = Except.ok est → est.fee_rate = some r →
      collect n d s .fee_estimate_144_blocks = r) ∧
    (∀ tips, n.get_chain_tips = Except.ok tips →
      collect n d s .chain_tips_count = (tips.length : ℚ)) ∧
    (∀ seconds, n.uptime = Except.ok seconds →
      collect n d s .node_uptime_seconds = (seconds : ℚ)) ∧
    (∀ info stats, n.get_blockchain_info = Except.ok info →
      n.get_block_stats_by_height (i64_as_u32 info.blocks) = Except.ok stats →
      collect n d s .latest_block_txs = (stats.txs : ℚ) ∧
      collect n d s .latest_block_size = (stats.total_size : ℚ) ∧
      collect n d s .latest_block_weight = (stats.total_weight : ℚ) ∧
      collect n d s .latest_block_avg_fee = (stats.average_fee : ℚ) ∧
      collect n d s .latest_block_avg_fee_rate = (stats.average_fee_rate : ℚ) ∧
      collect n d s .latest_block_median_fee = (stats.median_fee : ℚ) ∧
      collect n d s .latest_block_min_fee = (stats.minimum_fee : ℚ) ∧
      collect n d s .latest_block_max_fee = (stats.max_fee : ℚ) ∧
      collect n d s .latest_block_min_fee_rate = (stats.minimum_fee_rate : ℚ) ∧
      collect n d s .latest_block_max_fee_rate = (stats.max_fee_rate : ℚ) ∧
      collect n d s .latest_block_total_fee = (stats.total_fee : ℚ) ∧
      collect n d s .latest_block_subsidy = (stats.subsidy : ℚ) ∧
      collect n d s .latest_block_inputs = (stats.inputs : ℚ) ∧
      collect n d s .latest_block_outputs = (stats.outputs : ℚ) ∧
      collect n d s .latest_block_segwit_txs = (stats.segwit_txs : ℚ) ∧
      collect n d s .latest_block_segwit_total_size = (stats.segwit_total_size : ℚ) ∧
      collect n d s .latest_block_segwit_total_weight = (stats.segwit_total_weight : ℚ) ∧
      collect n d s .latest_block_total_out = (stats.total_out : ℚ) ∧
      collect n d s .latest_block_utxo_increase = (stats.utxo_increase : ℚ) ∧
      collect n d s .latest_block_fee_rate_10th = (stats.fee_rate_percentiles 0 : ℚ) ∧
      collect n d s .latest_block_fee_rate_25th = (stats.fee_rate_percentiles 1 : ℚ) ∧
      collect n d s .latest_block_fee_rate_50th = (stats.fee_rate_percentiles 2 : ℚ) ∧
      collect n d s .latest_block_fee_rate_75th = (stats.fee_rate_percentiles 3 : ℚ) ∧
      collect n d s .latest_block_fee_rate_90th = (stats.fee_rate_percentiles 4 : ℚ)) :=
  ⟨fun info h => collect_blockchain_ok n d s info h,
   fun info h => collect_mempool_ok n d s info h,
   fun info h => collect_network_ok n d s info h,
   fun peers h => collect_peers_ok n d s peers h,
   fun info h => collect_mining_ok n d s info h,
   fun info h => collect_chaintx_ok n d s info h,
   fun info h => collect_nettotals_ok n d s info h,
   fun est r h hr => collect_fee2_ok_some n d s est r h hr,
   fun est r h hr => collect_fee6_ok_some n d s est r h hr,
   fun est r h hr => collect_fee12_ok_some n d s est r h hr,
   fun est r h hr => collect_fee144_ok_some n d s est r h hr,
   fun tips h => collect_tips_ok n d s tips h,
   fun seconds h => collect_uptime_ok n d s seconds h,
   fun info stats h1 h2 => collect_blockstats_ok n d s info stats h1 h2⟩

/-- Witness for C1: a concrete all-success cycle populates representative
slots of three different sources with the just-fetched values. -/
theorem success_slots_reflect_fetched_witness :
    collect nodeA 1 m0 .blocks = (infoA.blocks : ℚ) ∧
    collect nodeA 1 m0 .mempool_transactions = (mempoolA.size : ℚ) ∧
    collect nodeA 1 m0 .latest_block_txs = (statsA.txs : ℚ) :=
  ⟨((success_slots_reflect_fetched nodeA 1 m0).1 infoA rfl).1,
   ((success_slots_reflect_fetched nodeA 1 m0).2.1 mempoolA rfl).1,
   ((success_slots_reflect_fetched nodeA 1
      m0).2.2.2.2.2.2.2.2.2.2.2.2.2 infoA statsA rfl rfl).1⟩

/-- Claim C3: the meta slots are written unconditionally every cycle — the
error flag is exactly 1 when at least one invoked operation (the fixed
queries, each fee target, and the conditional block-statistics call) failed
and exactly 0 otherwise, and the duration slot is written every cycle. -/
theorem meta_slots_written_every_cycle (n : NodeClient) (d : ℚ) (s : BitcoinMetrics) :
    collect n d s .scrape_error = (if anyFailure n then 1 else 0) ∧
    collect n d s .scrape_duration_seconds = d :=
  ⟨collect_scrape_error_eq n d s, collect_scrape_duration n d s⟩

/-- Claim C2: in every scrape cycle, every metric slot mapped from a source
operation that failed in that cycle keeps exactly its pre-cycle value (its
last successfully-set value, or the initial zero if never set); no slot is
overwritten with a sentinel because of a failure. -/
theorem failed_op_slots_retain (n : NodeClient) (d : ℚ) (s : BitcoinMetrics) :
    (∀ e, n.get_blockchain_info = Except.error e →
      ∀ slot, ownedByBlockchainInfo slot = true → collect n d s slot = s slot) ∧
    (∀ e, n.get_mempool_info = Except.error e →
      ∀ slot, ownedByMempoolInfo slot = true → collect n d s slot = s slot) ∧
    (∀ e, n.get_network_info = Except.error e →
      ∀ slot, ownedByNetworkInfo slot = true → collect n d s slot = s slot) ∧
    (∀ e, n.get_peer_info = Except.error e →
      ∀ slot, ownedByPeerInfo slot = true → collect n d s slot = s slot) ∧
    (∀ e, n.get_mining_info = Except.error e →
      ∀ slot, ownedByMiningInfo slot = true → collect n d s slot = s slot) ∧
    (∀ e, n.get_chain_tx_stats = Except.error e →
      ∀ slot, ownedByChainTxStats slot = true → collect n d s slot = s slot) ∧
    (∀ e, n.get_net_totals = Except.error e →
      ∀ slot, ownedByNetTotals slot = true → collect n d s slot = s slot) ∧
    (∀ e, n.estimate_smart_fee 2 = Except.error e →
      collect n d s .fee_estimate_2_blocks = s .fee_estimate_2_blocks) ∧
    (∀ e, n.estimate_smart_fee 6 = Except.error e →
      collect n d s .fee_estimate_6_blocks = s .fee_estimate_6_blocks) ∧
    (∀ e, n.estimate_smart_fee 12 = Except.error e →
      collect n d s .fee_estimate_12_blocks = s .fee_estimate_12_blocks) ∧
    (∀ e, n.estimate_smart_fee 144 = Except.error e →
      collect n d s .fee_estimate_144_blocks = s .fee_estimate_144_blocks) ∧
    (∀ e, n.get_chain_tips = Except.error e →
      collect n d s .chain_tips_count = s .chain_tips_count) ∧
    (∀ e, n.uptime = Except.error e →
      collect n d s .node_uptime_seconds = s .node_uptime_seconds) ∧
    (∀ info e, n.get_blockchain_info = Except.ok info →
      n.get_block_stats_by_height (i64_as_u32 info.blocks) = Except.error e →
      ∀ slot, ownedByBlockStats slot = true → collect n d s slot = s slot) := by
  refine ⟨?_, ?_, ?_, ?_, ?_, ?_, ?_,
    fun e h => collect_fee2_err n d s e h, fun e h => collect_fee6_err n d s e h,
    fun e h => collect_fee12_err n d s e h, fun e h => collect_fee144_err n d s e h,
    fun e h => collect_tips_err n d s e h, fun e h => collect_uptime_err n d s e h, ?_⟩
  · intro e h slot hs
    have H := collect_blockchain_err n d s e h
    cases slot <;> first
    | exact absurd hs (by decide)
    | exact H.1 | exact H.2.1 | exact H.2.2.1 | exact H.2.2.2.1
    | exact H.2.2.2.2.1 | exact H.2.2.2.2.2.1 | exact H.2.2.2.2.2.2
  · intro e h slot hs
    have H := collect_mempool_err n d s e h
    cases slot <;> first
    | exact absurd hs (by decide)
    | exact H.1 | exact H.2.1 | exact H.2.2.1 | exact H.2.2.2.1
    | exact H.2.2.2.2.1 | exact H.2.2.2.2.2.1 | exact H.2.2.2.2.2.2.1
    | exact H.2.2.2.2.2.2.2.1 | exact H.2.2.2.2.2.2.2.2.1 | exact H.2.2.2.2.2.2.2.2.2
  · intro e h slot hs
    have H := collect_network_err n d s e h
    cases slot <;> first
    | exact absurd hs (by decide)
    | exact H.1 | exact H.2.1 | exact H.2.2.1 | exact H.2.2.2.1
    | exact H.2.2.2.2.1 | exact H.2.2.2.2.2.1 | exact H.2.2.2.2.2.2.1
    | exact H.2.2.2.2.2.2.2.1 | exact H.2.2.2.2.2.2.2.2
  · intro e h slot hs
    have H := collect_peers_err n d s e h
    cases slot <;> first
    | exact absurd hs (by decide)
    | exact H.1 | exact H.2.1 | exact H.2.2.1 | exact H.2.2.2.1
    | exact H.2.2.2.2.1 | exact H.2.2.2.2.2
  · intro e h slot hs
    have H := collect_mining_err n d s e h
    cases slot <;> first
    | exact absurd hs (by decide)
    | exact H.1 | exact H.2
  · intro e h slot hs
    have H := collect_chaintx_err n d s e h
    cases slot <;> first
    | exact absurd hs (by decide)
    | exact H.1 | exact H.2.1 | exact H.2.2.1 | exact H.2.2.2.1 | exact H.2.2.2.2
  · intro e h slot hs
    have H := collect_nettotals_err n d s e h
    cases slot <;> first
    | exact absurd hs (by decide)
    | exact H.1 | exact H.2
  · intro info e h1 h2 slot hs
    have H := collect_blockstats_err n d s info e h1 h2
    cases slot <;> first
    | exact absurd hs (by decide)
    | exact H.1 | exact H.2.1 | exact H.2.2.1 | exact H.2.2.2.1
    | exact H.2.2.2.2.1 | exact H.2.2.2.2.2.1 | exact H.2.2.2.2.2.2.1
    | exact H.2.2.2.2.2.2.2.1 | exact H.2.2.2.2.2.2.2.2.1
    | exact H.2.2.2.2.2.2.2.2.2.1 | exact H.2.2.2.2.2.2.2.2.2.2.1
    | exact H.2.2.2.2.2.2.2.2.2.2.2.1 | exact H.2.2.2.2.2.2.2.2.2.2.2.2.1
    | exact H.2.2.2.2.2.2.2.2.2.2.2.2.2.1
    | exact H.2.2.2.2.2.2.2.2.2.2.2.2.2.2.1
    | exact H.2.2.2.2.2.2.2.2.2.2.2.2.2.2.2.1
    | exact H.2.2.2.2.2.2.2.2.2.2.2.2.2.2.2.2.1
    | exact H.2.2.2.2.2.2.2.2.2.2.2.2.2.2.2.2.2.1
    | exact H.2.2.2.2.2.2.2.2.2.2.2.2.2.2.2.2.2.2.1
    | exact H.2.2.2.2.2.2.2.2.2.2.2.2.2.2.2.2.2.2.2.1
    | exact H.2.2.2.2.2.2.2.2.2.2.2.2.2.2.2.2.2.2.2.2.1
    | exact H.2.2.2.2.2.2.2.2.2.2.2.2.2.2.2.2.2.2.2.2.2.1
    | exact H.2.2.2.2.2.2.2.2.2.2.2.2.2.2.2.2.2.2.2.2.2.2.1
    | exact H.2.2.2.2.2.2.2.2.2.2.2.2.2.2.2.2.2.2.2.2.2.2.2

/-- Witness for C2: with every operation failing, representative slots of
four different sources keep their pre-cycle value 37. -/
theorem failed_op_slots_retain_witness :
    collect nodeF 1 m37 .blocks = m37 .blocks ∧
    collect nodeF 1 m37 .mempool_transactions = m37 .mempool_transactions ∧
    collect nodeF 1 m37 .fee_estimate_2_blocks = m37 .fee_estimate_2_blocks ∧
    collect nodeF 1 m37 .node_uptime_seconds = m37 .node_uptime_seconds :=
  ⟨(failed_op_slots_retain nodeF 1 m37).1 (.Config "unreachable") rfl .blocks rfl,
   (failed_op_slots_retain nodeF 1 m37).2.1 (.Config "unreachable") rfl
     .mempool_transactions rfl,
   (failed_op_slots_retain nodeF 1 m37).2.2.2.2.2.2.2.1 (.Config "unreachable") rfl,
   (failed_op_slots_retain nodeF 1 m37).2.2.2.2.2.2.2.2.2.2.2.2.1
     (.Config "unreachable") rfl⟩

/-- Claim C4: when the blockchain status call fails, the block-statistics
lookup is not attempted at all — the cycle's outcome does not depend on the
block-statistics operation — and every latest-block slot keeps its prior
value. -/
theorem status_failure_skips_block_stats (n : NodeClient) (d : ℚ) (s : BitcoinMetrics)
    (e : Error) (hbc : n.get_blockchain_info = Except.error e) :
    (∀ f g, collect { n with get_block_stats_by_height := f } d s =
      collect { n with get_block_stats_by_height := g } d s) ∧
    (∀ slot, ownedByBlockStats slot = true → collect n d s slot = s slot) := by
  constructor
  · intro f g
    obtain ⟨bc, mp, net, pr, mi, ctx, nt, fee, tips, up, bs⟩ := n
    replace hbc : bc = Except.error e := hbc
    subst hbc
    unfold collect
    dsimp only
    rw [stepBlockStats_skip f _
          (by
            rw [stepUptime_bh, stepChainTips_bh, stepFeeEstimates_bh, stepNetTotals_bh,
                stepChainTxStats_bh, stepMiningInfo_bh, stepPeerInfo_bh, stepNetworkInfo_bh,
                stepMempoolInfo_bh, stepBlockchainInfo_bh_err]
            rfl),
        stepBlockStats_skip g _
          (by
            rw [stepUptime_bh, stepChainTips_bh, stepFeeEstimates_bh, stepNetTotals_bh,
                stepChainTxStats_bh, stepMiningInfo_bh, stepPeerInfo_bh, stepNetworkInfo_bh,
                stepMempoolInfo_bh, stepBlockchainInfo_bh_err]
            rfl)]
  · exact collect_skip_blockstats n d s e hbc

/-- Witness for C4: with the status call failing, a latest-block slot keeps
its value and the cycle result is the same under two different
block-statistics operations. -/
theorem status_failure_skips_block_stats_witness :
    collect nodeF 1 m37 .latest_block_txs = m37 .latest_block_txs ∧
    collect { nodeF with get_block_stats_by_height := fun _ => Except.ok statsA } 1 m37 =
      collect { nodeF with
        get_block_stats_by_height := fun _ => Except.error (.Config "x") } 1 m37 :=
  ⟨(status_failure_skips_block_stats nodeF 1 m37 (.Config "unreachable") rfl).2
      .latest_block_txs rfl,
   (status_failure_skips_block_stats nodeF 1 m37 (.Config "unreachable") rfl).1
      (fun _ => Except.ok statsA) (fun _ => Except.error (.Config "x"))⟩

/-- Claim C5: for every successfully fetched connection list, the inbound
and outbound count slots sum to the total count slot; the mean-ping slot is
the arithmetic mean of the pings of exactly the connections reporting one,
and 0 when none report one (the division is guarded). -/
theorem connection_aggregation (n : NodeClient) (d : ℚ) (s : BitcoinMetrics)
    (peers : GetPeerInfo) (h : n.get_peer_info = Except.ok peers) :
    collect n d s .peers_inbound + collect n d s .peers_outbound =
      collect n d s .peer_count ∧
    (peers.filterMap (fun p => p.ping_time) ≠ [] →
      collect n d s .peers_avg_ping_seconds =
        (peers.filterMap (fun p => p.ping_time)).sum /
          ((peers.filterMap (fun p => p.ping_time)).length : ℚ)) ∧
    (peers.filterMap (fun p => p.ping_time) = [] →
      collect n d s .peers_avg_ping_seconds = 0) := by
  have H := collect_peers_ok n d s peers h
  refine ⟨?_, ?_, ?_⟩
  · rw [H.1, H.2.1, H.2.2.1]
    have hle := List.length_filter_le (fun p => p.inbound) peers
    rw [Nat.cast_sub hle]
    ring
  · intro hne
    have hpos : 0 < (peers.filterMap (fun p => p.ping_time)).length :=
      List.length_pos.mpr hne
    rw [H.2.2.2.2.2, length_filter_isSome, if_pos hpos]
  · intro heq
    rw [H.2.2.2.2.2, length_filter_isSome, heq]
    simp

/-- Witness for C5: on a concrete list of three connections, two of which
report a ping, the counts add up and the mean-ping slot holds the mean of
the two reported pings. -/
theorem connection_aggregation_witness :
    (collect nodeA 1 m0 .peers_inbound + collect nodeA 1 m0 .peers_outbound =
      collect nodeA 1 m0 .peer_count) ∧
    collect nodeA 1 m0 .peers_avg_ping_seconds =
      (peersA.filterMap (fun p => p.ping_time)).sum /
        ((peersA.filterMap (fun p => p.ping_time)).length : ℚ) :=
  ⟨(connection_aggregation nodeA 1 m0 peersA rfl).1,
   (connection_aggregation nodeA 1 m0 peersA rfl).2.1 (by decide)⟩

/-- Claim C6: the fee-estimate operation is consulted at exactly the targets
2, 6, 12, 144, each with its own dedicated slot; a failing target does not
disturb a succeeding one, and fee-estimate outcomes do not prevent the
block-statistics lookup under a successful status call. -/
theorem fee_targets_independent (n : NodeClient) (d : ℚ) (s : BitcoinMetrics) :
    (feeTargets.map Prod.fst = [2, 6, 12, 144] ∧
     feeTargets.map Prod.snd =
       [.fee_estimate_2_blocks, .fee_estimate_6_blocks, .fee_estimate_12_blocks,
        .fee_estimate_144_blocks] ∧
     (feeTargets.map Prod.snd).Nodup) ∧
    (∀ f g, f 2 = g 2 → f 6 = g 6 → f 12 = g 12 → f 144 = g 144 →
      collect { n with estimate_smart_fee := f } d s =
        collect { n with estimate_smart_fee := g } d s) ∧
    (∀ est r, n.estimate_smart_fee 2 = Except.ok est → est.fee_rate = some r →
      collect n d s .fee_estimate_2_blocks = r) ∧
    (∀ est r, n.estimate_smart_fee 6 = Except.ok est → est.fee_rate = some r →
      collect n d s .fee_estimate_6_blocks = r) ∧
    (∀ est r, n.estimate_smart_fee 12 = Except.ok est → est.fee_rate = some r →
      collect n d s .fee_estimate_12_blocks = r) ∧
    (∀ est r, n.estimate_smart_fee 144 = Except.ok est → est.fee_rate = some r →
      collect n d s .fee_estimate_144_blocks = r) ∧
    (∀ info stats, n.get_blockchain_info = Except.ok info →
      n.get_block_stats_by_height (i64_as_u32 info.blocks) = Except.ok stats →
      collect n d s .latest_block_txs = (stats.txs : ℚ)) := by
  refine ⟨⟨rfl, rfl, by decide⟩, ?_,
    fun est r h hr => collect_fee2_ok_some n d s est r h hr,
    fun est r h hr => collect_fee6_ok_some n d s est r h hr,
    fun est r h hr => collect_fee12_ok_some n d s est r h hr,
    fun est r h hr => collect_fee144_ok_some n d s est r h hr,
    fun info stats h1 h2 => (collect_blockstats_ok n d s info stats h1 h2).1⟩
  intro f g h2 h6 h12 h144
  obtain ⟨bc, mp, net, pr, mi, ctx, nt, fee, tips, up, bs⟩ := n
  unfold collect
  dsimp only
  rw [stepFeeEstimates_congr f g _ h2 h6 h12 h144]

/-- Witness for C6: the 2-block slot gets the fetched rate, and two fee
functions that agree on the four targets but differ at target 3 yield the
same cycle outcome. -/
theorem fee_targets_independent_witness :
    collect nodeA 1 m0 .fee_estimate_2_blocks = ((2 : ℕ) : ℚ) / 100 ∧
    collect { nodeA with estimate_smart_fee := estA } 1 m0 =
      collect { nodeA with
        estimate_smart_fee := fun t => if t = 3 then Except.error (.Config "x") else estA t }
        1 m0 :=
  ⟨(fee_targets_independent nodeA 1 m0).2.2.1 _ _ rfl rfl,
   (fee_targets_independent nodeA 1 m0).2.1 estA
     (fun t => if t = 3 then Except.error (.Config "x") else estA t) rfl rfl rfl rfl⟩

/-- Claim C7: the five fee-rate percentile values of a successful
block-statistics result map positionally: index 0 to the 10th-percentile
slot, 1 to the 25th, 2 to the 50th, 3 to the 75th, 4 to the 90th. -/
theorem percentile_positional_mapping (n : NodeClient) (d : ℚ) (s : BitcoinMetrics)
    (info : GetBlockchainInfo) (stats : GetBlockStats)
    (hbc : n.get_blockchain_info = Except.ok info)
    (hbs : n.get_block_stats_by_height (i64_as_u32 info.blocks) = Except.ok stats) :
    collect n d s .latest_block_fee_rate_10th = (stats.fee_rate_percentiles 0 : ℚ) ∧
    collect n d s .latest_block_fee_rate_25th = (stats.fee_rate_percentiles 1 : ℚ) ∧
    collect n d s .latest_block_fee_rate_50th = (stats.fee_rate_percentiles 2 : ℚ) ∧
    collect n d s .latest_block_fee_rate_75th = (stats.fee_rate_percentiles 3 : ℚ) ∧
    collect n d s .latest_block_fee_rate_90th = (stats.fee_rate_percentiles 4 : ℚ) := by
  have H := collect_blockstats_ok n d s info stats hbc hbs
  exact ⟨H.2.2.2.2.2.2.2.2.2.2.2.2.2.2.2.2.2.2.2.1,
    H.2.2.2.2.2.2.2.2.2.2.2.2.2.2.2.2.2.2.2.2.1,
    H.2.2.2.2.2.2.2.2.2.2.2.2.2.2.2.2.2.2.2.2.2.1,
    H.2.2.2.2.2.2.2.2.2.2.2.2.2.2.2.2.2.2.2.2.2.2.1,
    H.2.2.2.2.2.2.2.2.2.2.2.2.2.2.2.2.2.2.2.2.2.2.2⟩

/-- Witness for C7: with percentile values [5, 10, 20, 50, 100], the
10th/25th/50th/75th/90th slots receive exactly 5, 10, 20, 50, 100. -/
theorem percentile_positional_mapping_witness :
    collect nodeA 1 m0 .latest_block_fee_rate_10th = ((5 : ℤ) : ℚ) ∧
    collect nodeA 1 m0 .latest_block_fee_rate_25th = ((10 : ℤ) : ℚ) ∧
    collect nodeA 1 m0 .latest_block_fee_rate_50th = ((20 : ℤ) : ℚ) ∧
    collect nodeA 1 m0 .latest_block_fee_rate_75th = ((50 : ℤ) : ℚ) ∧
    collect nodeA 1 m0 .latest_block_fee_rate_90th = ((100 : ℤ) : ℚ) :=
  percentile_positional_mapping nodeA 1 m0 infoA statsA rfl rfl

theorem decodeOptF64_id (o : Option ℚ) : decodeOptNum decodeF64 o = Except.ok o := by
  cases o <;> rfl

/-- Claim C8: the decode paths for getmininginfo and getchaintxstats read
the network hash rate and the transaction rate as floating-point numbers,
so a response carrying a non-integer value for them decodes successfully
and preserves the value — while the default integer decode of those
quantities fails on such a value. -/
theorem float_decode_override (j : MiningInfoJson) (k : ChainTxStatsJson)
    (h1 : (decodeU64 j.blocks).isOk = true)
    (h2 : (decodeOptNum decodeU64 j.currentblockweight).isOk = true)
    (h3 : (decodeOptNum decodeI64 j.currentblocktx).isOk = true)
    (h4 : (decodeI64 j.pooledtx).isOk = true)
    (k1 : (decodeI64 k.time).isOk = true)
    (k2 : (decodeI64 k.txcount).isOk = true)
    (k3 : (decodeI64 k.window_final_block_height).isOk = true)
    (k4 : (decodeI64 k.window_block_count).isOk = true)
    (k5 : (decodeOptNum decodeI64 k.window_tx_count).isOk = true)
    (k6 : (decodeOptNum decodeI64 k.window_interval).isOk = true) :
    (∃ m, decodeMiningInfo j = Except.ok m ∧ m.network_hash_ps = j.networkhashps) ∧
    (∃ st, decodeChainTxStats k = Except.ok st ∧ st.tx_rate = k.txrate) ∧
    (j.networkhashps.den ≠ 1 → (decodeI64 j.networkhashps).isOk = false) ∧
    (∀ r, k.txrate = some r → r.den ≠ 1 →
      (decodeOptNum decodeI64 k.txrate).isOk = false) := by
  obtain ⟨b, hb⟩ := isOkStr_exists _ h1
  obtain ⟨w, hw⟩ := isOkStr_exists _ h2
  obtain ⟨t, ht⟩ := isOkStr_exists _ h3
  obtain ⟨p, hp⟩ := isOkStr_exists _ h4
  obtain ⟨a1, ha1⟩ := isOkStr_exists _ k1
  obtain ⟨a2, ha2⟩ := isOkStr_exists _ k2
  obtain ⟨a3, ha3⟩ := isOkStr_exists _ k3
  obtain ⟨a4, ha4⟩ := isOkStr_exists _ k4
  obtain ⟨a5, ha5⟩ := isOkStr_exists _ k5
  obtain ⟨a6, ha6⟩ := isOkStr_exists _ k6
  refine ⟨⟨{ blocks := b, current_block_weight := w, current_block_tx := t,
             difficulty := j.difficulty, network_hash_ps := j.networkhashps,
             pooled_tx := p, chain := j.chain, warnings := j.warnings }, ?_, rfl⟩,
    ⟨{ time := a1, tx_count := a2,
       window_final_block_hash := k.window_final_block_hash,
       window_final_block_height := a3, window_block_count := a4,
       window_tx_count := a5, window_interval := a6, tx_rate := k.txrate }, ?_, rfl⟩,
    ?_, ?_⟩
  · unfold decodeMiningInfo
    rw [hb, hw, ht, hp]
    rfl
  · unfold decodeChainTxStats
    rw [ha1, ha2, ha3, ha4, ha5, ha6, decodeOptF64_id]
    rfl
  · intro hden
    simp [decodeI64, hden, Except.isOk, Except.toBool]
  · intro r hr hden
    simp [decodeOptNum, hr, decodeI64, hden, Except.map, Except.isOk, Except.toBool]

/-- Witness for C8: a getmininginfo payload whose hash rate is the
non-integer 9/2 decodes successfully and preserves the value, while the
integer decode of that number fails. -/
theorem float_decode_override_witness :
    (∃ m, decodeMiningInfo miningJsonA = Except.ok m ∧
      m.network_hash_ps = miningJsonA.networkhashps) ∧
    (decodeI64 miningJsonA.networkhashps).isOk = false := by
  have H := float_decode_override miningJsonA chainTxJsonA (by decide) (by decide)
    (by decide) (by decide) (by decide) (by decide) (by decide) (by decide)
    (by decide) (by decide)
  exact ⟨H.1, H.2.2.1 (by decide)⟩

/-- Claim C10: an operation that succeeds with an absent optional field (the
transaction rate, the window transaction count, the window interval, or a
fee-rate estimate) leaves the corresponding slot unchanged, and the absence
does not set the cycle's aggregate failure flag. -/
theorem absent_optional_retains (n : NodeClient) (d : ℚ) (s : BitcoinMetrics) :
    (∀ info, n.get_chain_tx_stats = Except.ok info →
      (info.tx_rate = none → collect n d s .chain_tx_rate = s .chain_tx_rate) ∧
      (info.window_tx_count = none →
        collect n d s .chain_tx_window_tx_count = s .chain_tx_window_tx_count) ∧
      (info.window_interval = none →
        collect n d s .chain_tx_window_interval = s .chain_tx_window_interval)) ∧
    (∀ est, n.estimate_smart_fee 2 = Except.ok est → est.fee_rate = none →
      collect n d s .fee_estimate_2_blocks = s .fee_estimate_2_blocks) ∧
    (∀ est, n.estimate_smart_fee 6 = Except.ok est → est.fee_rate = none →
      collect n d s .fee_estimate_6_blocks = s .fee_estimate_6_blocks) ∧
    (∀ est, n.estimate_smart_fee 12 = Except.ok est → est.fee_rate = none →
      collect n d s .fee_estimate_12_blocks = s .fee_estimate_12_blocks) ∧
    (∀ est, n.estimate_smart_fee 144 = Except.ok est → est.fee_rate = none →
      collect n d s .fee_estimate_144_blocks = s .fee_estimate_144_blocks) ∧
    (anyFailure n = false → collect n d s .scrape_error = 0) := by
  refine ⟨?_, fun est h hr => collect_fee2_ok_none n d s est h hr,
    fun est h hr => collect_fee6_ok_none n d s est h hr,
    fun est h hr => collect_fee12_ok_none n d s est h hr,
    fun est h hr => collect_fee144_ok_none n d s est h hr, ?_⟩
  · intro info h
    have H := collect_chaintx_ok n d s info h
    exact ⟨H.2.2.2.1, H.2.2.2.2.2.1, H.2.2.2.2.2.2.2⟩
  · intro hfail
    rw [collect_scrape_error_eq, hfail]
    simp

/-- Witness for C10: a cycle with every call succeeding but every optional
field absent keeps the optional slots at their prior value 37 and reports no
failure. -/
theorem absent_optional_retains_witness :
    collect nodeN 1 m37 .chain_tx_rate = m37 .chain_tx_rate ∧
    collect nodeN 1 m37 .fee_estimate_2_blocks = m37 .fee_estimate_2_blocks ∧
    collect nodeN 1 m37 .scrape_error = 0 :=
  ⟨((absent_optional_retains nodeN 1 m37).1 chainTxN rfl).1 rfl,
   (absent_optional_retains nodeN 1 m37).2.1 _ rfl rfl,
   (absent_optional_retains nodeN 1 m37).2.2.2.2.2 (by decide)⟩

/-- Claim C9: with every source operation succeeding and returning the same
results in two back-to-back cycles, the snapshots after the first and the
second cycle agree on every slot except the scrape-duration slot. -/
theorem cycle_idempotent (n : NodeClient) (d1 d2 : ℚ) (s : BitcoinMetrics)
    (hbc : n.get_blockchain_info.isOk = true)
    (hmp : n.get_mempool_info.isOk = true)
    (hnet : n.get_network_info.isOk = true)
    (hpr : n.get_peer_info.isOk = true)
    (hmi : n.get_mining_info.isOk = true)
    (hctx : n.get_chain_tx_stats.isOk = true)
    (hnt : n.get_net_totals.isOk = true)
    (hfee : ∀ t, (n.estimate_smart_fee t).isOk = true)
    (htips : n.get_chain_tips.isOk = true)
    (hup : n.uptime.isOk = true)
    (hbs : ∀ hh, (n.get_block_stats_by_height hh).isOk = true) :
    ∀ slot, slot ≠ Slot.scrape_duration_seconds →
      collect n d2 (collect n d1 s) slot = collect n d1 s slot := by
  obtain ⟨binfo, hb⟩ := isOk_exists _ hbc
  obtain ⟨mpinfo, hm⟩ := isOk_exists _ hmp
  obtain ⟨ninfo, hn⟩ := isOk_exists _ hnet
  obtain ⟨peers, hp⟩ := isOk_exists _ hpr
  obtain ⟨minfo, hmg⟩ := isOk_exists _ hmi
  obtain ⟨cinfo, hc⟩ := isOk_exists _ hctx
  obtain ⟨ntinfo, hq⟩ := isOk_exists _ hnt
  obtain ⟨est2, he2⟩ := isOk_exists _ (hfee 2)
  obtain ⟨est6, he6⟩ := isOk_exists _ (hfee 6)
  obtain ⟨est12, he12⟩ := isOk_exists _ (hfee 12)
  obtain ⟨est144, he144⟩ := isOk_exists _ (hfee 144)
  obtain ⟨tips, htp⟩ := isOk_exists _ htips
  obtain ⟨secs, hu⟩ := isOk_exists _ hup
  obtain ⟨stats, hst⟩ := isOk_exists _ (hbs (i64_as_u32 binfo.blocks))
  intro slot hslot
  have Kb2 := collect_blockchain_ok n d2 (collect n d1 s) binfo hb
  have Kb1 := collect_blockchain_ok n d1 s binfo hb
  have Km2 := collect_mempool_ok n d2 (collect n d1 s) mpinfo hm
  have Km1 := collect_mempool_ok n d1 s mpinfo hm
  have Kn2 := collect_network_ok n d2 (collect n d1 s) ninfo hn
  have Kn1 := collect_network_ok n d1 s ninfo hn
  have Kp2 := collect_peers_ok n d2 (collect n d1 s) peers hp
  have Kp1 := collect_peers_ok n d1 s peers hp
  have Kg2 := collect_mining_ok n d2 (collect n d1 s) minfo hmg
  have Kg1 := collect_mining_ok n d1 s minfo hmg
  have Kc2 := collect_chaintx_ok n d2 (collect n d1 s) cinfo hc
  have Kc1 := collect_chaintx_ok n d1 s cinfo hc
  have Kq2 := collect_nettotals_ok n d2 (collect n d1 s) ntinfo hq
  have Kq1 := collect_nettotals_ok n d1 s ntinfo hq
  have Ks2 := collect_blockstats_ok n d2 (collect n d1 s) binfo stats hb hst
  have Ks1 := collect_blockstats_ok n d1 s binfo stats hb hst
  cases slot
  case blocks => rw [Kb2.1, Kb1.1]
  case headers => rw [Kb2.2.1, Kb1.2.1]
  case difficulty => rw [Kb2.2.2.1, Kb1.2.2.1]
  case verification_progress => rw [Kb2.2.2.2.1, Kb1.2.2.2.1]
  case size_on_disk => rw [Kb2.2.2.2.2.1, Kb1.2.2.2.2.1]
  case initial_block_download => rw [Kb2.2.2.2.2.2.1, Kb1.2.2.2.2.2.1]
  case chain_pruned => rw [Kb2.2.2.2.2.2.2, Kb1.2.2.2.2.2.2]
  case mempool_transactions => rw [Km2.1, Km1.1]
  case mempool_bytes => rw [Km2.2.1, Km1.2.1]
  case mempool_usage => rw [Km2.2.2.1, Km1.2.2.1]
  case mempool_max_bytes => rw [Km2.2.2.2.1, Km1.2.2.2.1]
  case mempool_min_fee => rw [Km2.2.2.2.2.1, Km1.2.2.2.2.1]
  case mempool_total_fee => rw [Km2.2.2.2.2.2.1, Km1.2.2.2.2.2.1]
  case mempool_min_relay_tx_fee => rw [Km2.2.2.2.2.2.2.1, Km1.2.2.2.2.2.2.1]
  case mempool_incremental_relay_fee =>
    rw [Km2.2.2.2.2.2.2.2.1, Km1.2.2.2.2.2.2.2.1]
  case mempool_unbroadcast_count =>
    rw [Km2.2.2.2.2.2.2.2.2.1, Km1.2.2.2.2.2.2.2.2.1]
  case mempool_full_rbf => rw [Km2.2.2.2.2.2.2.2.2.2, Km1.2.2.2.2.2.2.2.2.2]
  case connections => rw [Kn2.1, Kn1.1]
  case connections_in => rw [Kn2.2.1, Kn1.2.1]
  case connections_out => rw [Kn2.2.2.1, Kn1.2.2.1]
  case network_active => rw [Kn2.2.2.2.1, Kn1.2.2.2.1]
  case node_version => rw [Kn2.2.2.2.2.1, Kn1.2.2.2.2.1]
  case protocol_version => rw [Kn2.2.2.2.2.2.1, Kn1.2.2.2.2.2.1]
  case time_offset => rw [Kn2.2.2.2.2.2.2.1, Kn1.2.2.2.2.2.2.1]
  case relay_fee => rw [Kn2.2.2.2.2.2.2.2.1, Kn1.2.2.2.2.2.2.2.1]
  case incremental_fee => rw [Kn2.2.2.2.2.2.2.2.2, Kn1.2.2.2.2.2.2.2.2]
  case peer_count => rw [Kp2.1, Kp1.1]
  case peers_inbound => rw [Kp2.2.1, Kp1.2.1]
  case peers_outbound => rw [Kp2.2.2.1, Kp1.2.2.1]
  case peers_total_bytes_sent => rw [Kp2.2.2.2.1, Kp1.2.2.2.1]
  case peers_total_bytes_received => rw [Kp2.2.2.2.2.1, Kp1.2.2.2.2.1]
  case peers_avg_ping_seconds => rw [Kp2.2.2.2.2.2, Kp1.2.2.2.2.2]
  case network_hash_ps => rw [Kg2.1, Kg1.1]
  case mining_pooled_tx => rw [Kg2.2, Kg1.2]
  case chain_tx_count => rw [Kc2.1, Kc1.1]
  case chain_tx_rate =>
    rcases hr : cinfo.tx_rate with _ | r
    · exact Kc2.2.2.2.1 hr
    · rw [Kc2.2.2.1 r hr, Kc1.2.2.1 r hr]
  case chain_tx_window_block_count => rw [Kc2.2.1, Kc1.2.1]
  case chain_tx_window_tx_count =>
    rcases hr : cinfo.window_tx_count with _ | cnt
    · exact Kc2.2.2.2.2.2.1 hr
    · rw [Kc2.2.2.2.2.1 cnt hr, Kc1.2.2.2.2.1 cnt hr]
  case chain_tx_window_interval =>
    rcases hr : cinfo.window_interval with _ | iv
    · exact Kc2.2.2.2.2.2.2.2 hr
    · rw [Kc2.2.2.2.2.2.2.1 iv hr, Kc1.2.2.2.2.2.2.1 iv hr]
  case net_total_bytes_received => rw [Kq2.1, Kq1.1]
  case net_total_bytes_sent => rw [Kq2.2, Kq1.2]
  case fee_estimate_2_blocks =>
    rcases hr : est2.fee_rate with _ | r
    · exact collect_fee2_ok_none n d2 (collect n d1 s) est2 he2 hr
    · rw [collect_fee2_ok_some n d2 (collect n d1 s) est2 r he2 hr,
          collect_fee2_ok_some n d1 s est2 r he2 hr]
  case fee_estimate_6_blocks =>
    rcases hr : est6.fee_rate with _ | r
    · exact collect_fee6_ok_none n d2 (collect n d1 s) est6 he6 hr
    · rw [collect_fee6_ok_some n d2 (collect n d1 s) est6 r he6 hr,
          collect_fee6_ok_some n d1 s est6 r he6 hr]
  case fee_estimate_12_blocks =>
    rcases hr : est12.fee_rate with _ | r
    · exact collect_fee12_ok_none n d2 (collect n d1 s) est12 he12 hr
    · rw [collect_fee12_ok_some n d2 (collect n d1 s) est12 r he12 hr,
          collect_fee12_ok_some n d1 s est12 r he12 hr]
  case fee_estimate_144_blocks =>
    rcases hr : est144.fee_rate with _ | r
    · exact collect_fee144_ok_none n d2 (collect n d1 s) est144 he144 hr
    · rw [collect_fee144_ok_some n d2 (collect n d1 s) est144 r he144 hr,
          collect_fee144_ok_some n d1 s est144 r he144 hr]
  case chain_tips_count =>
    rw [collect_tips_ok n d2 (collect n d1 s) tips htp, collect_tips_ok n d1 s tips htp]
  case node_uptime_seconds =>
    rw [collect_uptime_ok n d2 (collect n d1 s) secs hu, collect_uptime_ok n d1 s secs hu]
  case latest_block_txs => rw [Ks2.1, Ks1.1]
  case latest_block_size => rw [Ks2.2.1, Ks1.2.1]
  case latest_block_weight => rw [Ks2.2.2.1, Ks1.2.2.1]
  case latest_block_avg_fee => rw [Ks2.2.2.2.1, Ks1.2.2.2.1]
  case latest_block_avg_fee_rate => rw [Ks2.2.2.2.2.1, Ks1.2.2.2.2.1]
  case latest_block_median_fee => rw [Ks2.2.2.2.2.2.1, Ks1.2.2.2.2.2.1]
  case latest_block_min_fee => rw [Ks2.2.2.2.2.2.2.1, Ks1.2.2.2.2.2.2.1]
  case latest_block_max_fee => rw [Ks2.2.2.2.2.2.2.2.1, Ks1.2.2.2.2.2.2.2.1]
  case latest_block_min_fee_rate =>
    rw [Ks2.2.2.2.2.2.2.2.2.1, Ks1.2.2.2.2.2.2.2.2.1]
  case latest_block_max_fee_rate =>
    rw [Ks2.2.2.2.2.2.2.2.2.2.1, Ks1.2.2.2.2.2.2.2.2.2.1]
  case latest_block_total_fee =>
    rw [Ks2.2.2.2.2.2.2.2.2.2.2.1, Ks1.2.2.2.2.2.2.2.2.2.2.1]
  case latest_block_subsidy =>
    rw [Ks2.2.2.2.2.2.2.2.2.2.2.2.1, Ks1.2.2.2.2.2.2.2.2.2.2.2.1]
  case latest_block_inputs =>
    rw [Ks2.2.2.2.2.2.2.2.2.2.2.2.2.1, Ks1.2.2.2.2.2.2.2.2.2.2.2.2.1]
  case latest_block_outputs =>
    rw [Ks2.2.2.2.2.2.2.2.2.2.2.2.2.2.1, Ks1.2.2.2.2.2.2.2.2.2.2.2.2.2.1]
  case latest_block_segwit_txs =>
    rw [Ks2.2.2.2.2.2.2.2.2.2.2.2.2.2.2.1, Ks1.2.2.2.2.2.2.2.2.2.2.2.2.2.2.1]
  case latest_block_segwit_total_size =>
    rw [Ks2.2.2.2.2.2.2.2.2.2.2.2.2.2.2.2.1, Ks1.2.2.2.2.2.2.2.2.2.2.2.2.2.2.2.1]
  case latest_block_segwit_total_weight =>
    rw [Ks2.2.2.2.2.2.2.2.2.2.2.2.2.2.2.2.2.1,
        Ks1.2.2.2.2.2.2.2.2.2.2.2.2.2.2.2.2.1]
  case latest_block_total_out =>
    rw [Ks2.2.2.2.2.2.2.2.2.2.2.2.2.2.2.2.2.2.1,
        Ks1.2.2.2.2.2.2.2.2.2.2.2.2.2.2.2.2.2.1]
  case latest_block_utxo_increase =>
    rw [Ks2.2.2.2.2.2.2.2.2.2.2.2.2.2.2.2.2.2.2.1,
        Ks1.2.2.2.2.2.2.2.2.2.2.2.2.2.2.2.2.2.2.1]
  case latest_block_fee_rate_10th =>
    rw [Ks2.2.2.2.2.2.2.2.2.2.2.2.2.2.2.2.2.2.2.2.1,
        Ks1.2.2.2.2.2.2.2.2.2.2.2.2.2.2.2.2.2.2.2.1]
  case latest_block_fee_rate_25th =>
    rw [Ks2.2.2.2.2.2.2.2.2.2.2.2.2.2.2.2.2.2.2.2.2.1,
        Ks1.2.2.2.2.2.2.2.2.2.2.2.2.2.2.2.2.2.2.2.2.1]
  case latest_block_fee_rate_50th =>
    rw [Ks2.2.2.2.2.2.2.2.2.2.2.2.2.2.2.2.2.2.2.2.2.2.1,
        Ks1.2.2.2.2.2.2.2.2.2.2.2.2.2.2.2.2.2.2.2.2.2.1]
  case latest_block_fee_rate_75th =>
    rw [Ks2.2.2.2.2.2.2.2.2.2.2.2.2.2.2.2.2.2.2.2.2.2.2.1,
        Ks1.2.2.2.2.2.2.2.2.2.2.2.2.2.2.2.2.2.2.2.2.2.2.1]
  case latest_block_fee_rate_90th =>
    rw [Ks2.2.2.2.2.2.2.2.2.2.2.2.2.2.2.2.2.2.2.2.2.2.2.2,
        Ks1.2.2.2.2.2.2.2.2.2.2.2.2.2.2.2.2.2.2.2.2.2.2.2]
  case scrape_duration_seconds => exact absurd rfl hslot
  case scrape_error =>
    rw [collect_scrape_error_eq, collect_scrape_error_eq]

/-- Witness for C9: two back-to-back cycles of a concrete all-success node
agree on the block-height slot. -/
theorem cycle_idempotent_witness :
    collect nodeA 2 (collect nodeA 1 m0) .blocks = collect nodeA 1 m0 .blocks :=
  cycle_idempotent nodeA 1 2 m0 rfl rfl rfl rfl rfl rfl rfl (fun t => rfl) rfl rfl
    (fun hh => rfl) .blocks (by decide)

end Btcnode
